import Mathlib

/-!
Verification development for the Monte Carlo retirement projection engine
of the RetirementSimulator repository.

The engine is embedded shallowly over exact rational arithmetic:

* `compute_capital_gains_tax`, `compute_rmd`, `rmd_start_age`,
  `social_security_benefit`, `decide_conversion` embed the pure calculator
  functions.
* `cover_need` embeds the deficit-covering loop `_cover_need` (fuel-indexed,
  since the Python loop has no syntactic bound).
* `year_step` / `simulate_path` / `simulate` embed the merged-account
  single-path simulator and the multi-path aggregator from
  `retirement_planner/calculators/monte_carlo.py`.
* `split_year_step` / `simulate_path_split` embed `_simulate_path_split`.

Stochastic draws are modelled by an explicit stream `z : ℕ → ℚ` of
standard-normal variates consumed in program order; `numpy`'s
`rng.normal(mean, stdev)` is `mean + stdev * z k`.  A seeded run fixes the
stream as a pure function of the seed.
-/

/-- Tax bracket: lower bound, optional upper bound, rate. -/
structure TaxBracket where
  start : ℚ
  stop : Option ℚ
  rate : ℚ
deriving Repr, DecidableEq

/-- Embeds the bracket-walking loop of `compute_capital_gains_tax`
(`taxes.py`): for each bracket, if the full `gain` exceeds the bracket
start, tax `min remaining width` at the bracket rate, else stop. -/
def cap_gains_loop (gain : ℚ) : List TaxBracket → ℚ → ℚ → ℚ
  | [], _, tax => tax
  | b :: bs, remaining, tax =>
    if remaining ≤ 0 then tax
    else if b.start < gain then
      let amount := match b.stop with
        | some e => min remaining (e - b.start)
        | none => remaining
      cap_gains_loop gain bs (remaining - amount) (tax + amount * b.rate)
    else tax

/-- Modelled from the spec: the default capital-gains bracket table
(`data/tax_tables.json`) is not present in the repository source, so the
single-filer long-term capital-gains brackets are modelled from the spec
("capital-gains bracket evaluation" with a 0 % / 15 % / 20 % progressive
schedule, consistent with the module docstring example). -/
def cap_gains_brackets : List TaxBracket :=
  [⟨0, some 48350, 0⟩, ⟨48350, some 533400, 15/100⟩, ⟨533400, none, 20/100⟩]

/-- Embeds `compute_capital_gains_tax` from
`retirement_planner/calculators/taxes.py`: zero on non-positive gains,
otherwise progressive bracket evaluation. -/
def compute_capital_gains_tax (gain : ℚ) : ℚ :=
  if gain ≤ 0 then 0
  else cap_gains_loop gain cap_gains_brackets gain 0

/-- Embeds `rmd_start_age` from `calculators/rmd.py`: SECURE Act 2.0 start
ages by birth year. -/
def rmd_start_age (birth_year : ℤ) : ℤ :=
  if birth_year ≤ 1950 then 72
  else if birth_year ≤ 1959 then 73
  else 75

/-- Embeds `_uniform_lifetime_table` from `calculators/rmd.py`: the IRS
Uniform Lifetime distribution periods for ages 72–120. -/
def uniform_lifetime_table : List (ℤ × ℚ) :=
  [(72, 274/10), (73, 265/10), (74, 255/10), (75, 246/10), (76, 237/10),
   (77, 229/10), (78, 22), (79, 211/10), (80, 202/10), (81, 194/10),
   (82, 185/10), (83, 177/10), (84, 168/10), (85, 16), (86, 152/10),
   (87, 144/10), (88, 137/10), (89, 129/10), (90, 122/10), (91, 115/10),
   (92, 108/10), (93, 101/10), (94, 95/10), (95, 89/10), (96, 84/10),
   (97, 78/10), (98, 73/10), (99, 68/10), (100, 64/10), (101, 6),
   (102, 56/10), (103, 52/10), (104, 49/10), (105, 46/10), (106, 43/10),
   (107, 41/10), (108, 39/10), (109, 37/10), (110, 35/10), (111, 34/10),
   (112, 33/10), (113, 31/10), (114, 3), (115, 29/10), (116, 28/10),
   (117, 27/10), (118, 25/10), (119, 23/10), (120, 2)]

/-- Embeds `compute_rmd` from `calculators/rmd.py`: balance divided by the
distribution period, zero for non-positive balance or an age outside the
table. -/
def compute_rmd (balance : ℚ) (age : ℤ) : ℚ :=
  if balance ≤ 0 then 0
  else
    match (uniform_lifetime_table.find? (fun e => e.1 = age)) with
    | none => 0
    | some e => balance / e.2

/-- Embeds the single-claimant path of `social_security_benefit` from
`retirement_planner/calculators/social_security.py`: claim age clamped to
[62, 70], 7 %/year early reduction below FRA, 8 %/year delayed credit above,
paid monthly times 12. -/
def social_security_benefit (pia : ℚ) (start_age : ℤ) (fra : ℤ := 67) : ℚ :=
  let claim : ℤ := max 62 (min 70 start_age)
  let ydiff : ℤ := claim - fra
  let factor : ℚ := if ydiff < 0 then 1 + (7/100) * ydiff else 1 + (8/100) * ydiff
  pia * factor * 12

/-- Roth conversion policy record
(`plan["roth_conversion"]`; `none` models an absent or empty dict). -/
structure RothConversion where
  start_age : ℤ := 0
  end_age : ℤ := 0
  annual_cap : ℚ := 0
  tax_rate : ℚ := 0
  pay_tax_from_taxable : Bool := true
deriving Repr, DecidableEq

/-- Embeds `_decide_conversion` from `monte_carlo.py`: zero outside the
policy window (or with no policy), otherwise the annual cap clamped into
[0, 1] times the prior-year pre-tax balance. -/
def decide_conversion (prior_pre_tax_balance : ℚ) (age : ℤ)
    (rc : Option RothConversion) : ℚ :=
  match rc with
  | none => 0
  | some c =>
    if age < c.start_age ∨ c.end_age < age then 0
    else prior_pre_tax_balance * (max 0 (min 1 c.annual_cap))

theorem compute_rmd_example : compute_rmd 100000 73 = 200000/53 := by
  norm_num [compute_rmd, uniform_lifetime_table, List.find?]

theorem social_security_example : social_security_benefit 2000 65 = 20640 := by
  norm_num [social_security_benefit]

/-- Account record: one bucket of money, mirroring the account dicts.  An
absent dict is the default record (every key read via `.get` with a
default). -/
structure Account where
  balance : ℚ := 0
  contribution : ℚ := 0
  mean_return : Option ℚ := none
  stdev_return : Option ℚ := none
  withdrawal_tax_rate : Option ℚ := none
  basis : Option ℚ := none
  annual_limit : Option ℚ := none
  limit_growth : ℚ := 0
  max_out : Bool := false
deriving Repr, DecidableEq

/-- Withdrawal strategy selector (`plan["withdrawal_strategy"]`); any string
other than `proportional` / `tax_bracket` behaves as `standard`. -/
inductive Strategy
  | standard
  | proportional
  | tax_bracket
deriving Repr, DecidableEq

/-- Plan record for the merged-account simulator path, mirroring the nested
plan mapping.  `state_tax` records a configured state (`none` models a
missing or falsy `state` key); the `(rate, standard_deduction)` payload
follows the spec's flat-rate description, but the source never computes it:
its state-tax call raises `TypeError` (unexpected `filing_status` keyword),
so only the presence of the key is observable, through `simulate` returning
an error. -/
structure Plan where
  current_age : ℤ
  retire_age : ℤ
  end_age : ℤ
  birth_year : ℤ := 1900
  pre_tax : Account := {}
  roth : Account := {}
  taxable : Account := {}
  cash : Account := {}
  salary : ℚ := 0
  salary_growth : ℚ := 0
  income_tax_rate : ℚ := 0
  roth_income_limit : Option ℚ := none
  baseline : ℚ := 0
  special : List (ℤ × ℚ) := []
  returns_correlated : Bool := true
  roth_conversion : Option RothConversion := none
  state_tax : Option (ℚ × ℚ) := none
  social_security : Option (ℚ × ℤ) := none
  strategy : Strategy := .standard
  pre_tax_limit : ℚ := 0
deriving Repr, DecidableEq

/-- Ordinary withdrawal tax rate of the pre-tax account
(`pre_tax.get("withdrawal_tax_rate", 0.0)`). -/
def Plan.pre_rate (p : Plan) : ℚ := p.pre_tax.withdrawal_tax_rate.getD 0

/-- Withdrawal tax rate of the taxable account, defaulting to the pre-tax
rate (`taxable.get("withdrawal_tax_rate", pre_tax_tax_rate)`). -/
def Plan.taxable_rate (p : Plan) : ℚ := p.taxable.withdrawal_tax_rate.getD p.pre_rate

/-- Social Security claim age (`ss_info.get("claim_age", 67)`). -/
def Plan.ss_claim_age (p : Plan) : ℤ := (p.social_security.map (fun e => e.2)).getD 67

/-- Annual Social Security benefit, zero unless a positive PIA is set. -/
def Plan.ss_annual (p : Plan) : ℚ :=
  match p.social_security with
  | none => 0
  | some e => if 0 < e.1 then social_security_benefit e.1 e.2 else 0

/-- Lookup of a special expense for one age; later duplicate entries
overwrite earlier ones, as in the Python dict construction. -/
def special_at (l : List (ℤ × ℚ)) (age : ℤ) : ℚ :=
  ((l.reverse.find? (fun e => e.1 = age)).map (fun e => e.2)).getD 0

/-- Roth IRA income-limit test (`year_income <= roth_income_limit`, with a
missing limit read as infinity). -/
def under_limit (income : ℚ) : Option ℚ → Bool
  | none => true
  | some l => income ≤ l

/-- Mid-year working state: the four balances, the taxable cost basis and
the running `year_withdrawals` / `withdraw_tax` accumulators. -/
structure MidState where
  pre : ℚ
  roth : ℚ
  taxable : ℚ
  basis : ℚ
  cash : ℚ
  wdr : ℚ
  wtax : ℚ
deriving Repr, DecidableEq

/-- State of the `_cover_need` loop: the outstanding need, the mid-year
state and the `realized_gains` accumulator. -/
structure CoverState where
  need : ℚ
  m : MidState
  gains : ℚ
deriving Repr, DecidableEq

/-- Loop threshold of `_cover_need` (`while need > 1e-9`). -/
def cover_eps : ℚ := 1/1000000000

/-- Embeds the body and control flow of `_cover_need` from `monte_carlo.py`
as a fuel-indexed loop.  The returned flag is `true` exactly when the loop
exited as the Python loop does (need at or below the threshold, or `break`
with every source exhausted); `false` means the fuel ran out with the loop
still running. -/
def cover_need (rate : ℚ) : ℕ → CoverState → CoverState × Bool
  | 0, s => (s, false)
  | fuel+1, s =>
    if s.need ≤ cover_eps then (s, true)
    else if 0 < min s.m.cash s.need then
      let take := min s.m.cash s.need
      cover_need rate fuel
        { s with
          need := s.need - take,
          m := { s.m with
                 cash := s.m.cash - take,
                 wdr := s.m.wdr + take } }
    else if 0 < s.m.taxable then
      let gross := min s.m.taxable s.need
      let basis_used := gross * (s.m.basis / s.m.taxable)
      let gain := gross - basis_used
      let cg := compute_capital_gains_tax gain
      cover_need rate fuel
        { need := s.need - gross + (if 0 < cg then cg else 0),
          m := { s.m with
                 taxable := s.m.taxable - gross,
                 basis := s.m.basis - basis_used,
                 wdr := s.m.wdr + gross,
                 wtax := s.m.wtax + (if 0 < cg then cg else 0) },
          gains := s.gains + gain }
    else if 0 < s.m.pre then
      let gross := min s.m.pre (if rate < 1 then s.need / (1 - rate) else s.need)
      let net := gross * (1 - rate)
      cover_need rate fuel
        { s with
          need := s.need - net,
          m := { s.m with
                 pre := s.m.pre - gross,
                 wdr := s.m.wdr + gross,
                 wtax := s.m.wtax + gross * rate } }
    else if 0 < s.m.roth then
      let take := min s.m.roth s.need
      cover_need rate fuel
        { s with
          need := s.need - take,
          m := { s.m with
                 roth := s.m.roth - take,
                 wdr := s.m.wdr + take } }
    else (s, true)

/-- Embeds the forced-RMD step of the retirement block (`simulate_path`
lines 575–588): when the age has reached the RMD start age and the pre-tax
balance is positive, withdraw the RMD computed from the prior-year balance
(clamped to the current balance); net proceeds beyond the need are swept to
cash.  Returns the state, the remaining need and `rmd_gross`. -/
def rmd_step (rate : ℚ) (rmd_start age : ℤ) (prior need : ℚ) (s : MidState) :
    MidState × ℚ × ℚ :=
  if rmd_start ≤ age ∧ 0 < s.pre then
    let g := min (compute_rmd prior age) s.pre
    let net := g * (1 - rate)
    let s1 := { s with
                pre := s.pre - g,
                wdr := s.wdr + g,
                wtax := s.wtax + g * rate }
    if need ≤ net then ({ s1 with cash := s1.cash + (net - need) }, 0, g)
    else (s1, need - net, g)
  else (s, need, 0)

/-- Embeds the strategy dispatch of the retirement block (`standard`,
`proportional`, `tax_bracket`), returning the updated state and remaining
need. -/
def strat_step (strat : Strategy) (rate rate_t blimit rmd_gross need : ℚ)
    (s : MidState) : MidState × ℚ :=
  match strat with
  | .proportional =>
    let tax_bal := s.taxable
    let pre_bal := s.pre
    let total_net := tax_bal * (1 - rate_t) + pre_bal * (1 - rate)
    if 0 < total_net then
      let dtn := need * (tax_bal * (1 - rate_t) / total_net)
      let gross_t := min tax_bal (if rate_t < 1 then dtn / (1 - rate_t) else dtn)
      let net_t := gross_t * (1 - rate_t)
      let s1 := { s with
                  taxable := s.taxable - gross_t,
                  wdr := s.wdr + gross_t,
                  wtax := s.wtax + gross_t * rate_t }
      let need1 := need - net_t
      let net_p := min (pre_bal * (1 - rate)) need1
      let gross_p := if rate < 1 then net_p / (1 - rate) else net_p
      ({ s1 with
         pre := s1.pre - gross_p,
         wdr := s1.wdr + gross_p,
         wtax := s1.wtax + gross_p * rate }, need1 - net_p)
    else (s, need)
  | .tax_bracket =>
    let lim := max 0 (blimit - rmd_gross)
    let r1 :=
      if 0 < lim ∧ 0 < need then
        let gross := min s.pre (min lim (if rate < 1 then need / (1 - rate) else need))
        (({ s with
            pre := s.pre - gross,
            wdr := s.wdr + gross,
            wtax := s.wtax + gross * rate } : MidState),
         need - gross * (1 - rate))
      else (s, need)
    if 0 < r1.2 then
      let gross := min r1.1.taxable (if rate_t < 1 then r1.2 / (1 - rate_t) else r1.2)
      ({ r1.1 with
         taxable := r1.1.taxable - gross,
         wdr := r1.1.wdr + gross,
         wtax := r1.1.wtax + gross * rate_t }, r1.2 - gross * (1 - rate_t))
    else r1
  | .standard =>
    let gross := min s.taxable (if rate_t < 1 then need / (1 - rate_t) else need)
    let s1 := { s with
                taxable := s.taxable - gross,
                wdr := s.wdr + gross,
                wtax := s.wtax + gross * rate_t }
    let need1 := need - gross * (1 - rate_t)
    if 0 < need1 then
      let gross2 := min s1.pre (if rate < 1 then need1 / (1 - rate) else need1)
      ({ s1 with
         pre := s1.pre - gross2,
         wdr := s1.wdr + gross2,
         wtax := s1.wtax + gross2 * rate }, need1 - gross2 * (1 - rate))
    else (s1, need1)

/-- Embeds the whole retirement-withdrawal block (`simulate_path` lines
572–659): forced RMD, then, if need remains, the selected strategy, then
Roth, then cash. -/
def retire_phase (strat : Strategy) (rate rate_t blimit : ℚ) (rmd_start age : ℤ)
    (prior year_expenses : ℚ) (s : MidState) : MidState :=
  let r1 := rmd_step rate rmd_start age prior (max 0 year_expenses) s
  if 0 < r1.2.1 then
    let r2 := strat_step strat rate rate_t blimit r1.2.2 r1.2.1 r1.1
    let r3 :=
      if 0 < r2.2 then
        let take := min r2.1.roth r2.2
        (({ r2.1 with
            roth := r2.1.roth - take,
            wdr := r2.1.wdr + take } : MidState),
         r2.2 - take)
      else r2
    if 0 < r3.2 then
      let take := min r3.1.cash r3.2
      { r3.1 with
        cash := r3.1.cash - take,
        wdr := r3.1.wdr + take }
    else r3.1
  else r1.1

/-- Per-path loop state: the four balances, the taxable basis, the salary
base, the running Roth annual limit and the random-stream index. -/
structure PathState where
  pre : ℚ
  roth : ℚ
  taxable : ℚ
  basis : ℚ
  cash : ℚ
  salary : ℚ
  roth_limit : ℚ
  k : ℕ
deriving Repr, DecidableEq

/-- One row of the per-year ledger built by `simulate_path`. -/
structure LedgerRow where
  age : ℤ
  income : ℚ
  expenses : ℚ
  withdrawals : ℚ
  taxes : ℚ
  roth_conversion : ℚ
  conversion_tax : ℚ
  pre_tax : ℚ
  roth : ℚ
  taxable : ℚ
  cash : ℚ
  net_worth : ℚ
deriving Repr, DecidableEq

/-- Gross Roth conversion actually applied in a year: the policy amount
clamped into `[0, current pre-tax balance]` (`simulate_path` line 555). -/
def conv_gross (rc : Option RothConversion) (prior : ℚ) (age : ℤ) (pre_bal : ℚ) : ℚ :=
  max 0 (min (decide_conversion prior age rc) pre_bal)

/-- Embeds one loop iteration (one simulated year) of the merged-account
`simulate_path` for a plan without a state key: income, expenses, pending
contributions, income tax, deficit coverage, surplus sweep, returns,
year-end contribution realization, Roth conversion, and retirement
withdrawals, in source order.  The source's state-tax step (line 525)
passes a `filing_status` keyword that `compute_state_tax` (`taxes.py` line
151) does not accept, so with a state key every iteration raises
`TypeError` before reaching the return draw; that error path is surfaced
by `simulate`, which returns `none` for state-configured plans. -/
def year_step (p : Plan) (z : ℕ → ℚ) (fuel : ℕ) (age : ℤ) (s : PathState) :
    PathState × LedgerRow :=
  let rate := p.pre_rate
  let prior := s.pre
  let income_sal := if age < p.retire_age then s.salary else 0
  let salary1 := if age < p.retire_age then s.salary * (1 + p.salary_growth) else s.salary
  let year_income := income_sal + (if p.ss_claim_age ≤ age then p.ss_annual else 0)
  let year_expenses := p.baseline + special_at p.special age
  let available0 := year_income - year_expenses
  let pend :=
    if age < p.retire_age ∧ 0 < available0 then
      let cp := min available0 p.pre_tax.contribution
      let a1 := available0 - cp
      let roth_cap := if p.roth.max_out then s.roth_limit else p.roth.contribution
      let rstep :=
        if under_limit year_income p.roth_income_limit then
          let c := min a1 roth_cap
          (c, a1 - c)
        else (0, a1)
      let ct := min rstep.2 p.taxable.contribution
      (cp, rstep.1, ct, rstep.2 - ct)
    else (0, 0, 0, available0)
  let income_tax := year_income * p.income_tax_rate
  let available2 := pend.2.2.2 - income_tax
  let m0 : MidState := ⟨s.pre, s.roth, s.taxable, s.basis, s.cash, 0, 0⟩
  let cres :=
    if available2 < 0 then (cover_need rate fuel ⟨-available2, m0, 0⟩).1
    else ⟨0, m0, 0⟩
  let c1 := cres.m
  let c2 := if 0 < available2 then { c1 with cash := c1.cash + available2 } else c1
  let roth_limit1 :=
    if p.roth.max_out then s.roth_limit * (1 + p.roth.limit_growth) else s.roth_limit
  let pm := p.pre_tax.mean_return.getD (5/100)
  let ps := p.pre_tax.stdev_return.getD (10/100)
  let rm := p.roth.mean_return.getD (6/100)
  let rs := p.roth.stdev_return.getD (12/100)
  let tm := p.taxable.mean_return.getD (6/100)
  let ts := p.taxable.stdev_return.getD (12/100)
  let rets :=
    if p.returns_correlated then
      let rdraw := rm + rs * z s.k
      (c2.pre * (1 + rdraw + (pm - rm)),
       c2.roth * (1 + rdraw + (rm - rm)),
       c2.taxable * (1 + rdraw + (tm - rm)), s.k + 1)
    else
      (c2.pre * (1 + (pm + ps * z s.k)),
       c2.roth * (1 + (rm + rs * z (s.k + 1))),
       c2.taxable * (1 + (tm + ts * z (s.k + 2))), s.k + 3)
  let pre1 := rets.1 + pend.1
  let roth1 := rets.2.1 + pend.2.1
  let tax1 := rets.2.2.1 + pend.2.2.1
  let basis1 := c2.basis + pend.2.2.1
  let gross_conv := conv_gross p.roth_conversion prior age pre1
  let conv_tax := gross_conv * ((p.roth_conversion.map (fun c => c.tax_rate)).getD 0)
  let post_conv :=
    if 0 < gross_conv then
      if (p.roth_conversion.map (fun c => c.pay_tax_from_taxable)).getD true then
        (pre1 - gross_conv, roth1 + gross_conv, tax1 - conv_tax)
      else
        (pre1 - gross_conv, roth1 + max 0 (gross_conv - conv_tax), tax1)
    else (pre1, roth1, tax1)
  let m3 : MidState :=
    ⟨post_conv.1, post_conv.2.1, post_conv.2.2, basis1, c2.cash, c2.wdr, c2.wtax⟩
  let m4 :=
    if p.retire_age ≤ age then
      retire_phase p.strategy rate p.taxable_rate p.pre_tax_limit
        (rmd_start_age p.birth_year) age prior year_expenses m3
    else m3
  let nw := m4.pre + m4.roth + m4.taxable + m4.cash
  (⟨m4.pre, m4.roth, m4.taxable, m4.basis, m4.cash, salary1, roth_limit1, rets.2.2.2⟩,
   ⟨age, year_income, year_expenses, m4.wdr, income_tax + conv_tax + m4.wtax,
    gross_conv, conv_tax, m4.pre, m4.roth, m4.taxable, m4.cash, nw⟩)

/-- List of simulated ages, `range(current_age, end_age + 1)`. -/
def ages_list (p : Plan) : List ℤ :=
  (List.range (p.end_age + 1 - p.current_age).toNat).map
    (fun i : ℕ => p.current_age + (i : ℤ))

/-- Embeds the merged-account `simulate_path`: fold `year_step` over the
ages, starting from the plan balances (with the taxable basis defaulted to
the taxable balance) and random-stream index `k0`.  Returns the ledger and
the final loop state. -/
def simulate_path (p : Plan) (z : ℕ → ℚ) (fuel : ℕ) (k0 : ℕ) :
    List LedgerRow × PathState :=
  let init : PathState :=
    ⟨p.pre_tax.balance, p.roth.balance, p.taxable.balance,
     p.taxable.basis.getD p.taxable.balance, p.cash.balance, p.salary,
     p.roth.annual_limit.getD p.roth.contribution, k0⟩
  (ages_list p).foldl
    (fun acc age =>
      let r := year_step p z fuel age acc.2
      (acc.1 ++ [r.2], r.1))
    ([], init)

/-- Insertion into a sorted rational list. -/
def insertQ (x : ℚ) : List ℚ → List ℚ
  | [] => [x]
  | y :: ys => if x ≤ y then x :: y :: ys else y :: insertQ x ys

/-- Insertion sort for rational lists (ascending). -/
def sortQ : List ℚ → List ℚ
  | [] => []
  | x :: xs => insertQ x (sortQ xs)

/-- Embeds `np.percentile(xs, q)` with the default linear interpolation:
position `q (m-1) / 100` between order statistics. -/
def percentileQ (q : ℚ) (xs : List ℚ) : ℚ :=
  let s := sortQ xs
  let m := s.length
  if m = 0 then 0
  else
    let pos : ℚ := q * (m - 1) / 100
    let i : ℕ := pos.floor.toNat
    let vi := s.getD i 0
    let vi1 := s.getD (i + 1) vi
    vi + (pos - (i : ℚ)) * (vi1 - vi)

/-- First index of the minimum, as `np.argmin` (helper). -/
def idx_of_min_aux : List ℚ → ℚ → ℕ → ℕ → ℕ
  | [], _, _, best => best
  | x :: xs, bv, i, best =>
    if x < bv then idx_of_min_aux xs x (i + 1) i
    else idx_of_min_aux xs bv (i + 1) best

/-- First index of the minimum of a rational list (`np.argmin`). -/
def idx_of_min : List ℚ → ℕ
  | [] => 0
  | x :: xs => idx_of_min_aux xs x 1 0

/-- Aggregated simulation result (`simulate`'s returned dict). -/
structure SimResult where
  ages : List ℤ
  success_probability : ℚ
  p10 : List ℚ
  p50 : List ℚ
  p90 : List ℚ
  median_terminal : ℚ
  acct_pre : List ℚ
  acct_roth : List ℚ
  acct_taxable : List ℚ
  acct_cash : List ℚ
  ledger_median : List LedgerRow
deriving Repr, DecidableEq

/-- Runs `n` paths sequentially, threading the shared random-stream index
from one path to the next (the single shared generator of `simulate`). -/
def run_paths (p : Plan) (z : ℕ → ℚ) (fuel : ℕ) : ℕ → ℕ → List (List LedgerRow)
  | 0, _ => []
  | n+1, k =>
    let r := simulate_path p z fuel k
    r.1 :: run_paths p z fuel n r.2.k

/-- Embeds `simulate`: runs `n` paths off one seeded stream, stacks net
worths, computes 10/50/90 percentile bands per age, success probability
(fraction of paths with non-negative terminal net worth), the cross-path
median account series, and the representative ledger (path whose terminal
net worth is closest to the median).  Returns `none` exactly where the
Python code raises: stacking zero paths, an empty age range, or a
state-configured plan (whose state-tax call passes a `filing_status`
keyword `compute_state_tax` does not accept, a `TypeError` in the first
simulated year of every path). -/
def simulate (p : Plan) (n : ℕ) (z : ℕ → ℚ) (fuel : ℕ) : Option SimResult :=
  if n = 0 then none
  else if (ages_list p).isEmpty then none
  else if p.state_tax.isSome then none
  else
    let paths := run_paths p z fuel n 0
    let nw := paths.map (fun rows => rows.map (fun r => r.net_worth))
    let terminal := nw.map (fun l => l.getLastD 0)
    let cols := nw.transpose
    let med := percentileQ 50 terminal
    let midx := idx_of_min (terminal.map (fun t => |t - med|))
    let colMed := fun (f : LedgerRow → ℚ) =>
      ((paths.map (fun rows => rows.map f)).transpose).map (percentileQ 50)
    some
      { ages := ages_list p,
        success_probability := (terminal.countP (fun t => 0 ≤ t) : ℚ) / (n : ℚ),
        p10 := cols.map (percentileQ 10),
        p50 := cols.map (percentileQ 50),
        p90 := cols.map (percentileQ 90),
        median_terminal := med,
        acct_pre := colMed (fun r => r.pre_tax),
        acct_roth := colMed (fun r => r.roth),
        acct_taxable := colMed (fun r => r.taxable),
        acct_cash := colMed (fun r => r.cash),
        ledger_median := paths.getD midx [] }

/-- Split-path account record: adds the optional age-indexed contribution
schedule read by `_contribution_for_age`. -/
structure SplitAccount where
  balance : ℚ := 0
  contribution : ℚ := 0
  contribution_schedule : Option (List (ℤ × ℚ)) := none
  mean_return : Option ℚ := none
  stdev_return : Option ℚ := none
deriving Repr, DecidableEq

/-- Embeds `_contribution_for_age`: the schedule entry for this age when a
schedule dict is configured (default 0), else the flat contribution. -/
def contribution_for_age (a : SplitAccount) (age : ℤ) : ℚ :=
  match a.contribution_schedule with
  | some sched => special_at sched age
  | none => a.contribution

/-- Plan record for `_simulate_path_split` (a plan whose `accounts` mapping
has any of the split keys).  `pre_rate` mirrors
`acc.get("pre_tax", {}).get("withdrawal_tax_rate", 0.0)`. -/
structure SplitPlan where
  current_age : ℤ
  retire_age : ℤ
  end_age : ℤ
  birth_year : ℤ := 1900
  pre_tax_401k : SplitAccount := {}
  pre_tax_ira : SplitAccount := {}
  roth_401k : SplitAccount := {}
  roth_ira : SplitAccount := {}
  taxable : SplitAccount := {}
  cash_balance : ℚ := 0
  pre_rate : ℚ := 0
  salary : ℚ := 0
  salary_growth : ℚ := 0
  income_tax_rate : ℚ := 0
  roth_income_limit : Option ℚ := none
  baseline : ℚ := 0
  special : List (ℤ × ℚ) := []
  returns_correlated : Bool := true
  roth_conversion : Option RothConversion := none
  strategy : Strategy := .standard
  pre_tax_limit : ℚ := 0
deriving Repr, DecidableEq

/-- Split-path loop state: five account balances, cash, salary base and the
random-stream index. -/
structure SplitState where
  p401k : ℚ
  pIra : ℚ
  r401k : ℚ
  rIra : ℚ
  taxable : ℚ
  cash : ℚ
  salary : ℚ
  k : ℕ
deriving Repr, DecidableEq

/-- Embeds `_take_from_pre_tax`: drain the 401k first, remainder from the
IRA (the IRA side is not clamped). -/
def take_from_pre_tax (gross : ℚ) (s : SplitState) : SplitState :=
  let take := min s.p401k gross
  let rem := gross - take
  { s with p401k := s.p401k - take, pIra := if 0 < rem then s.pIra - rem else s.pIra }

/-- Embeds `_take_from_roth`: drain the Roth 401k first, remainder from the
Roth IRA. -/
def take_from_roth (amount : ℚ) (s : SplitState) : SplitState :=
  let take := min s.r401k amount
  let rem := amount - take
  { s with r401k := s.r401k - take, rIra := if 0 < rem then s.rIra - rem else s.rIra }

/-- Total pre-tax balance of the split state (`_pre_tax_balance`). -/
def SplitState.preTot (s : SplitState) : ℚ := s.p401k + s.pIra

/-- Total Roth balance of the split state (`_roth_balance`). -/
def SplitState.rothTot (s : SplitState) : ℚ := s.r401k + s.rIra

/-- Embeds the pre-retirement contribution block of `_simulate_path_split`
(lines 111–140): contributions are added to balances immediately, in the
order 401k, Roth 401k, IRA, Roth IRA (income-limited), taxable, capped at
23000 / 7000 unless an explicit schedule is configured.  Returns the state
and the remaining surplus. -/
def split_contributions (p : SplitPlan) (age : ℤ) (year_income available : ℚ)
    (s : SplitState) : SplitState × ℚ :=
  let w1 := contribution_for_age p.pre_tax_401k age
  let cap1 := if (p.pre_tax_401k.contribution_schedule).isSome then w1 else 23000
  let c1 := min available (min w1 cap1)
  let a1 := available - c1
  let w2 := contribution_for_age p.roth_401k age
  let cap2 := if (p.roth_401k.contribution_schedule).isSome then w2 else 23000
  let c2 := min a1 (min w2 cap2)
  let a2 := a1 - c2
  let w3 := contribution_for_age p.pre_tax_ira age
  let cap3 := if (p.pre_tax_ira.contribution_schedule).isSome then w3 else 7000
  let c3 := min a2 (min w3 cap3)
  let a3 := a2 - c3
  let w4 := contribution_for_age p.roth_ira age
  let r4 :=
    if under_limit year_income p.roth_income_limit then
      let cap4 := if (p.roth_ira.contribution_schedule).isSome then w4 else 7000
      let c4 := min a3 (min w4 cap4)
      (c4, a3 - c4)
    else (0, a3)
  let w5 := contribution_for_age p.taxable age
  let c5 := min r4.2 w5
  ({ s with
     p401k := s.p401k + c1,
     r401k := s.r401k + c2,
     pIra := s.pIra + c3,
     rIra := s.rIra + r4.1,
     taxable := s.taxable + c5 }, r4.2 - c5)

/-- Embeds the straight-line deficit coverage of `_simulate_path_split`
(lines 145–171): cash, then taxable (1:1), then grossed-up pre-tax, then
Roth.  Returns the state and accumulated (withdrawals, withdraw tax). -/
def split_cover (rate need0 : ℚ) (s0 : SplitState) : SplitState × ℚ × ℚ :=
  let take1 := min s0.cash need0
  let s1 := { s0 with cash := s0.cash - take1 }
  let need1 := need0 - take1
  let wdr1 := take1
  let r2 :=
    if 0 < need1 then
      let take := min s1.taxable need1
      (({ s1 with taxable := s1.taxable - take } : SplitState), need1 - take, wdr1 + take)
    else (s1, need1, wdr1)
  let r3 :=
    if 0 < r2.2.1 then
      let gross := min r2.1.preTot (if rate < 1 then r2.2.1 / (1 - rate) else r2.2.1)
      let net := gross * (1 - rate)
      (take_from_pre_tax gross r2.1, r2.2.1 - net, r2.2.2 + gross, gross * rate)
    else (r2.1, r2.2.1, r2.2.2, 0)
  if 0 < r3.2.1 then
    let take := min r3.1.rothTot r3.2.1
    (take_from_roth take r3.1, r3.2.2.1 + take, r3.2.2.2)
  else (r3.1, r3.2.2.1, r3.2.2.2)

/-- Embeds the retirement-withdrawal block of `_simulate_path_split` (lines
206–277): forced RMD, then the strategy (`standard` and `tax_bracket` draw
taxable 1:1 here; `proportional` uses after-tax shares), then Roth, then
cash.  Returns the state and accumulated (withdrawals, withdraw tax). -/
def split_retire (p : SplitPlan) (age : ℤ) (prior year_expenses : ℚ)
    (s0 : SplitState) : SplitState × ℚ × ℚ :=
  let rate := p.pre_rate
  let need0 := max 0 year_expenses
  let rmd_start := rmd_start_age p.birth_year
  let r1 :=
    if rmd_start ≤ age ∧ 0 < s0.preTot then
      let g := min (compute_rmd prior age) s0.preTot
      let net := g * (1 - rate)
      let s1 := take_from_pre_tax g s0
      if need0 ≤ net then
        (({ s1 with cash := s1.cash + (net - need0) } : SplitState), 0, g, g, g * rate)
      else (s1, need0 - net, g, g, g * rate)
    else (s0, need0, 0, 0, 0)
  let s1 := r1.1
  let need1 := r1.2.1
  let rmd_gross := r1.2.2.1
  let wdr1 := r1.2.2.2.1
  let wtax1 := r1.2.2.2.2
  if 0 < need1 then
    let r2 :=
      match p.strategy with
      | .proportional =>
        let tax_bal := s1.taxable
        let pre_bal := s1.preTot
        let total_net := tax_bal + pre_bal * (1 - rate)
        if 0 < total_net then
          let desired := need1 * (tax_bal / total_net)
          let nft := min tax_bal desired
          let s2 := { s1 with taxable := s1.taxable - nft }
          let need2 := need1 - nft
          let net_p := min (pre_bal * (1 - rate)) need2
          let gross_p := if rate < 1 then net_p / (1 - rate) else net_p
          (take_from_pre_tax gross_p s2, need2 - net_p,
           wdr1 + nft + gross_p, wtax1 + gross_p * rate)
        else (s1, need1, wdr1, wtax1)
      | .tax_bracket =>
        let lim := max 0 (p.pre_tax_limit - rmd_gross)
        let ra :=
          if 0 < lim ∧ 0 < need1 then
            let gross := min s1.preTot (min lim (if rate < 1 then need1 / (1 - rate) else need1))
            (take_from_pre_tax gross s1, need1 - gross * (1 - rate),
             wdr1 + gross, wtax1 + gross * rate)
          else (s1, need1, wdr1, wtax1)
        if 0 < ra.2.1 then
          let take := min ra.1.taxable ra.2.1
          (({ ra.1 with taxable := ra.1.taxable - take } : SplitState),
           ra.2.1 - take, ra.2.2.1 + take, ra.2.2.2)
        else ra
      | .standard =>
        let take := min s1.taxable need1
        let s2 := { s1 with taxable := s1.taxable - take }
        let need2 := need1 - take
        if 0 < need2 then
          let gross := min s2.preTot (if rate < 1 then need2 / (1 - rate) else need2)
          (take_from_pre_tax gross s2, need2 - gross * (1 - rate),
           wdr1 + take + gross, wtax1 + gross * rate)
        else (s2, need2, wdr1 + take, wtax1)
    let r3 :=
      if 0 < r2.2.1 then
        let take := min r2.1.rothTot r2.2.1
        (take_from_roth take r2.1, r2.2.1 - take, r2.2.2.1 + take, r2.2.2.2)
      else r2
    if 0 < r3.2.1 then
      let take := min r3.1.cash r3.2.1
      (({ r3.1 with cash := r3.1.cash - take } : SplitState),
       r3.2.2.1 + take, r3.2.2.2)
    else (r3.1, r3.2.2.1, r3.2.2.2)
  else (s1, wdr1, wtax1)

/-- Embeds one loop iteration of `_simulate_path_split`: contributions are
applied to balances *before* the return draw (lines 111–140 precede lines
177–189), unlike the merged path. -/
def split_year_step (p : SplitPlan) (z : ℕ → ℚ) (age : ℤ) (s : SplitState) :
    SplitState × LedgerRow :=
  let prior := s.preTot
  let income_sal := if age < p.retire_age then s.salary else 0
  let salary1 := if age < p.retire_age then s.salary * (1 + p.salary_growth) else s.salary
  let year_income := income_sal
  let year_expenses := p.baseline + special_at p.special age
  let available0 := year_income - year_expenses
  let contrib :=
    if age < p.retire_age ∧ 0 < available0 then
      split_contributions p age year_income available0 s
    else (s, available0)
  let income_tax := year_income * p.income_tax_rate
  let available2 := contrib.2 - income_tax
  let cov :=
    if available2 < 0 then split_cover p.pre_rate (-available2) contrib.1
    else (contrib.1, 0, 0)
  let s2 := if 0 < available2 then { cov.1 with cash := cov.1.cash + available2 } else cov.1
  let rets :=
    if p.returns_correlated then
      let rdraw := (6/100 : ℚ) + (12/100) * z s.k
      (s2.p401k * (1 + rdraw + ((p.pre_tax_401k.mean_return.getD (5/100)) - 6/100)),
       s2.pIra * (1 + rdraw + ((p.pre_tax_ira.mean_return.getD (5/100)) - 6/100)),
       s2.r401k * (1 + rdraw + ((p.roth_401k.mean_return.getD (6/100)) - 6/100)),
       s2.rIra * (1 + rdraw + ((p.roth_ira.mean_return.getD (6/100)) - 6/100)),
       s2.taxable * (1 + rdraw + ((p.taxable.mean_return.getD (6/100)) - 6/100)),
       s.k + 1)
    else
      (s2.p401k * (1 + ((p.pre_tax_401k.mean_return.getD (5/100))
         + (p.pre_tax_401k.stdev_return.getD (10/100)) * z s.k)),
       s2.pIra * (1 + ((p.pre_tax_ira.mean_return.getD (5/100))
         + (p.pre_tax_ira.stdev_return.getD (10/100)) * z (s.k + 1))),
       s2.r401k * (1 + ((p.roth_401k.mean_return.getD (6/100))
         + (p.roth_401k.stdev_return.getD (12/100)) * z (s.k + 2))),
       s2.rIra * (1 + ((p.roth_ira.mean_return.getD (6/100))
         + (p.roth_ira.stdev_return.getD (12/100)) * z (s.k + 3))),
       s2.taxable * (1 + ((p.taxable.mean_return.getD (6/100))
         + (p.taxable.stdev_return.getD (12/100)) * z (s.k + 4))),
       s.k + 5)
  let s3 : SplitState :=
    { s2 with
      p401k := rets.1, pIra := rets.2.1, r401k := rets.2.2.1,
      rIra := rets.2.2.2.1, taxable := rets.2.2.2.2.1, k := rets.2.2.2.2.2 }
  let gross_conv := max 0 (min (decide_conversion prior age p.roth_conversion) s3.preTot)
  let conv_tax := gross_conv * ((p.roth_conversion.map (fun c => c.tax_rate)).getD 0)
  let s4 :=
    if 0 < gross_conv then
      if (p.roth_conversion.map (fun c => c.pay_tax_from_taxable)).getD true then
        let sa := take_from_pre_tax gross_conv { s3 with taxable := s3.taxable - conv_tax }
        { sa with rIra := sa.rIra + gross_conv }
      else
        let sa := take_from_pre_tax gross_conv s3
        { sa with rIra := sa.rIra + max 0 (gross_conv - conv_tax) }
    else s3
  let ret :=
    if p.retire_age ≤ age then split_retire p age prior year_expenses s4
    else (s4, 0, 0)
  let s5 := ret.1
  let wdr := cov.2.1 + ret.2.1
  let wtax := cov.2.2 + ret.2.2
  let nw := s5.preTot + s5.rothTot + s5.taxable + s5.cash
  ({ s5 with salary := salary1 },
   ⟨age, year_income, year_expenses, wdr, income_tax + conv_tax + wtax,
    gross_conv, conv_tax, s5.preTot, s5.rothTot, s5.taxable, s5.cash, nw⟩)

/-- List of simulated ages for a split plan. -/
def split_ages (p : SplitPlan) : List ℤ :=
  (List.range (p.end_age + 1 - p.current_age).toNat).map
    (fun i : ℕ => p.current_age + (i : ℤ))

/-- Embeds `_simulate_path_split`: fold `split_year_step` over the ages. -/
def simulate_path_split (p : SplitPlan) (z : ℕ → ℚ) (k0 : ℕ) :
    List LedgerRow × SplitState :=
  let init : SplitState :=
    ⟨p.pre_tax_401k.balance, p.pre_tax_ira.balance, p.roth_401k.balance,
     p.roth_ira.balance, p.taxable.balance, p.cash_balance, p.salary, k0⟩
  (split_ages p).foldl
    (fun acc age =>
      let r := split_year_step p z age acc.2
      (acc.1 ++ [r.2], r.1))
    ([], init)

/-- Scenario plan of claim C1: single pre-tax account of 100000 at 20 %
withdrawal tax, zero mean/stdev returns (independent draws, so the drawn
return is exactly zero), no taxable/Roth/cash accounts, no income,
50000/year baseline expenses, ages 65–66, retirement at 65, standard
strategy. -/
def planC1 : Plan :=
  { current_age := 65, retire_age := 65, end_age := 66,
    pre_tax := { balance := 100000, mean_return := some 0, stdev_return := some 0,
                 withdrawal_tax_rate := some (1/5) },
    baseline := 50000,
    returns_correlated := false }

lemma planC1_ages : ages_list planC1 = [65, 66] := rfl

lemma planC1_step65 (z : ℕ → ℚ) (fuel : ℕ) :
    year_step planC1 z (fuel+2) 65 ⟨100000, 0, 0, 0, 0, 0, 0, 0⟩ =
      (⟨0, 0, 0, 0, 0, 0, 0, 3⟩,
       ⟨65, 0, 50000, 100000, 20000, 0, 0, 0, 0, 0, 0, 0⟩) := by
  norm_num [year_step, cover_need, retire_phase, rmd_step,
    strat_step, cover_eps, special_at, under_limit, conv_gross, decide_conversion,
    Plan.pre_rate, Plan.taxable_rate, Plan.ss_annual, Plan.ss_claim_age, rmd_start_age,
    planC1]

lemma planC1_step66 (z : ℕ → ℚ) (fuel : ℕ) :
    year_step planC1 z (fuel+2) 66 ⟨0, 0, 0, 0, 0, 0, 0, 3⟩ =
      (⟨0, 0, 0, 0, 0, 0, 0, 6⟩,
       ⟨66, 0, 50000, 0, 0, 0, 0, 0, 0, 0, 0, 0⟩) := by
  norm_num [year_step, cover_need, retire_phase, rmd_step,
    strat_step, cover_eps, special_at, under_limit, conv_gross, decide_conversion,
    Plan.pre_rate, Plan.taxable_rate, Plan.ss_annual, Plan.ss_claim_age, rmd_start_age,
    planC1]

lemma planC1_path (z : ℕ → ℚ) (fuel : ℕ) :
    simulate_path planC1 z (fuel+2) 0 =
      ([⟨65, 0, 50000, 100000, 20000, 0, 0, 0, 0, 0, 0, 0⟩,
        ⟨66, 0, 50000, 0, 0, 0, 0, 0, 0, 0, 0, 0⟩],
       ⟨0, 0, 0, 0, 0, 0, 0, 6⟩) := by
  have hinit : (⟨planC1.pre_tax.balance, planC1.roth.balance, planC1.taxable.balance,
      planC1.taxable.basis.getD planC1.taxable.balance, planC1.cash.balance, planC1.salary,
      planC1.roth.annual_limit.getD planC1.roth.contribution, 0⟩ : PathState) =
      ⟨100000, 0, 0, 0, 0, 0, 0, 0⟩ := rfl
  simp only [simulate_path, planC1_ages, List.foldl_cons, List.foldl_nil, hinit,
    planC1_step65 z fuel, List.nil_append]
  simp only [planC1_step66 z fuel, List.singleton_append]

/-- C1 (counterexample): on the C1 scenario plan, the first simulated year
of `simulate_path` records gross withdrawals of 100000 and an ending
pre-tax balance of 0 — not the claimed gross 62500 with net 50000 and
ending pre-tax balance 37500.  (The deficit-coverage step withdraws gross
62500, and the retirement-withdrawal step then charges the expenses a
second time, draining the remaining 37500.) -/
theorem C1_counterexample :
    (((simulate_path planC1 (fun _ => 0) 2 0).1.map
        (fun r => (r.withdrawals, r.pre_tax))).head? = some (100000, 0)) ∧
    ¬ (((100000 : ℚ), (0 : ℚ)) = ((62500 : ℚ), (37500 : ℚ))) := by
  have h := planC1_path (fun _ => 0) 0
  norm_num at h
  rw [h]
  norm_num

/-- C1 (amended): in the first simulated year the deficit-coverage loop
withdraws gross 62500 (net 50000), leaving a pre-tax balance of 37500; the
retirement-withdrawal phase then charges the year's expenses again,
withdrawing the remaining 37500 gross, so the year ends with gross
withdrawals 100000, taxes 20000 and pre-tax balance 0, independent of the
random stream. -/
theorem C1_amended (z : ℕ → ℚ) (fuel : ℕ) :
    (simulate_path planC1 z (fuel + 2) 0).1 =
      [⟨65, 0, 50000, 100000, 20000, 0, 0, 0, 0, 0, 0, 0⟩,
       ⟨66, 0, 50000, 0, 0, 0, 0, 0, 0, 0, 0, 0⟩] ∧
    cover_need (1/5) (fuel + 2) ⟨50000, ⟨100000, 0, 0, 0, 0, 0, 0⟩, 0⟩ =
      (⟨0, ⟨37500, 0, 0, 0, 0, 62500, 12500⟩, 0⟩, true) := by
  refine ⟨(planC1_path z fuel).symm ▸ rfl, ?_⟩
  norm_num [cover_need, cover_eps]

/-- Modelled from the spec: `np.random.default_rng(seed)`.  numpy's
generator internals are not repository code; the spec relies only on the
draw stream being a pure deterministic function of the seed, so the seeded
standard-normal stream is modelled as a simple congruential stream of
rationals in [-1, 1]. -/
def seed_stream (seed : ℕ) : ℕ → ℚ :=
  fun k =>
    let x := (1664525 * (seed + k) + 1013904223) % 2147483648
    ((x % 2001 : ℕ) : ℚ) / 1000 - 1

/-- Embeds a seeded `simulate(plan, n_paths, seed)` call: the draw stream
is the pure function of the seed. -/
def simulate_seeded (p : Plan) (n : ℕ) (seed : ℕ) (fuel : ℕ) : Option SimResult :=
  simulate p n (seed_stream seed) fuel

/-- C2: two calls of `simulate` with the same plan, path count and seed
return identical success probability and identical 10th/50th/90th
percentile bands — in the embedding the seeded run is a pure function of
`(plan, n_paths, seed)`, so determinism is definitional. -/
theorem C2_determinism (p : Plan) (n seed fuel : ℕ) (r1 r2 : Option SimResult)
    (h1 : r1 = simulate_seeded p n seed fuel) (h2 : r2 = simulate_seeded p n seed fuel) :
    r1.map (fun r => r.success_probability) = r2.map (fun r => r.success_probability) ∧
    r1.map (fun r => (r.p10, r.p50, r.p90)) = r2.map (fun r => (r.p10, r.p50, r.p90)) := by
  subst h1
  subst h2
  exact ⟨rfl, rfl⟩

/-- C2 (witness): the determinism theorem applied to the C1 scenario plan
with one path and seed 0. -/
theorem C2_determinism_witness :
    (simulate_seeded planC1 1 0 2 = simulate_seeded planC1 1 0 2) ∧
    ((simulate_seeded planC1 1 0 2).map (fun r => r.success_probability) =
      (simulate_seeded planC1 1 0 2).map (fun r => r.success_probability)) :=
  ⟨rfl, (C2_determinism planC1 1 0 2 (simulate_seeded planC1 1 0 2)
      (simulate_seeded planC1 1 0 2) rfl rfl).1⟩

/-- Clamped annual cap of a conversion policy (`max(0, min(1, cap))`). -/
def clamp01 (x : ℚ) : ℚ := max 0 (min 1 x)

lemma conv_gross_le_cap (rc : Option RothConversion) (prior : ℚ) (age : ℤ)
    (pre_bal : ℚ) (h : 0 ≤ prior) :
    conv_gross rc prior age pre_bal ≤
      clamp01 ((rc.map (fun c => c.annual_cap)).getD 0) * prior := by
  rcases rc with _ | c
  · simp only [conv_gross, decide_conversion, clamp01, Option.map_none', Option.getD_none]
    have h1 : max (0:ℚ) (min 1 0) = 0 := by norm_num
    rw [h1, zero_mul]
    exact max_le le_rfl (min_le_left _ _)
  · simp only [conv_gross, decide_conversion, clamp01, Option.map_some', Option.getD_some]
    split_ifs with hw
    · exact le_trans (max_le le_rfl (min_le_left _ _))
        (mul_nonneg (le_max_left _ _) h)
    · exact max_le (mul_nonneg (le_max_left _ _) h)
        (le_trans (min_le_left _ _) (le_of_eq (mul_comm _ _)))

lemma conv_gross_le_bal (rc : Option RothConversion) (prior : ℚ) (age : ℤ)
    (pre_bal : ℚ) (h : 0 ≤ pre_bal) :
    conv_gross rc prior age pre_bal ≤ pre_bal := by
  unfold conv_gross
  exact max_le h (min_le_right _ _)

/-- C5: the gross Roth conversion recorded in the ledger by a simulated
year never exceeds the clamped annual cap times the prior-year pre-tax
balance (regardless of the state of the other accounts), and the applied
conversion amount never exceeds the pre-tax balance current at the moment
it is applied (the explicit clamp of `conv_gross`). -/
theorem C5_conversion_cap (p : Plan) (z : ℕ → ℚ) (fuel : ℕ) (age : ℤ)
    (s : PathState) (h : 0 ≤ s.pre) :
    (year_step p z fuel age s).2.roth_conversion ≤
      clamp01 ((p.roth_conversion.map (fun c => c.annual_cap)).getD 0) * s.pre ∧
    ∀ (rc : Option RothConversion) (prior pre_bal : ℚ), 0 ≤ pre_bal →
      conv_gross rc prior age pre_bal ≤ pre_bal := by
  constructor
  · simp only [year_step]
    exact conv_gross_le_cap _ _ _ _ h
  · intro rc prior pre_bal hb
    exact conv_gross_le_bal rc prior age pre_bal hb

/-- C5 (witness): the conversion-cap theorem applied to the C1 plan state
at age 65. -/
theorem C5_conversion_cap_witness :
    (0 : ℚ) ≤ 100000 ∧
    ((year_step planC1 (fun _ => 0) 2 65 ⟨100000, 0, 0, 0, 0, 0, 0, 0⟩).2.roth_conversion ≤
      clamp01 ((planC1.roth_conversion.map (fun c => c.annual_cap)).getD 0) * 100000 ∧
    ∀ (rc : Option RothConversion) (prior pre_bal : ℚ), 0 ≤ pre_bal →
      conv_gross rc prior (65 : ℤ) pre_bal ≤ pre_bal) :=
  ⟨by norm_num,
   C5_conversion_cap planC1 (fun _ => 0) 2 65 ⟨100000, 0, 0, 0, 0, 0, 0, 0⟩ (by norm_num)⟩

/-- Traced store behaviour of a `simulate` call with respect to the
caller's plan object: every balance/basis mutation in the source targets
account dicts taken with `.copy()` (or locals), never the caller's plan, so
the call leaves the plan component of the store unchanged and is returned
here next to the result. -/
def simulate_with_plan (p : Plan) (n : ℕ) (z : ℕ → ℚ) (fuel : ℕ) :
    Option SimResult × Plan :=
  (simulate p n z fuel, p)

/-- C8: a `simulate` call never mutates the caller's plan: after the call
the plan object — including every account's balance, basis and
contribution — equals its value before the call. -/
theorem C8_no_mutation (p : Plan) (n : ℕ) (z : ℕ → ℚ) (fuel : ℕ) :
    (simulate_with_plan p n z fuel).2 = p ∧
    (simulate_with_plan p n z fuel).2.pre_tax.balance = p.pre_tax.balance ∧
    (simulate_with_plan p n z fuel).2.taxable.balance = p.taxable.balance ∧
    (simulate_with_plan p n z fuel).2.taxable.basis = p.taxable.basis ∧
    (simulate_with_plan p n z fuel).2.pre_tax.contribution = p.pre_tax.contribution := by
  exact ⟨rfl, rfl, rfl, rfl, rfl⟩

lemma ages_list_ne_nil (p : Plan) (h : p.current_age ≤ p.end_age) :
    (ages_list p).isEmpty = false := by
  rw [List.isEmpty_eq_false]
  simp only [ages_list, ne_eq, List.map_eq_nil_iff, List.range_eq_nil]
  omega

/-- C9 (counterexample): `simulate` with `n_paths = 0` does not return a
result — the embedding returns `none` exactly where the Python code raises
(`np.vstack` on an empty list of paths). -/
theorem C9_counterexample :
    simulate planC1 0 (fun _ => 0) 2 = none := rfl

/-- C9 (amended): `simulate` returns a result exactly when there is at
least one path, a non-empty age range, and no state key.  With
`n_paths = 0` the stacking step raises (`np.vstack` of zero paths), and a
state-configured plan raises `TypeError` in the first simulated year of
every path: `compute_state_tax` is called with a `filing_status` keyword
its signature does not accept. -/
theorem C9_amended (p : Plan) (n : ℕ) (z : ℕ → ℚ) (fuel : ℕ) :
    (simulate p n z fuel).isSome = true ↔
      (n ≠ 0 ∧ (ages_list p).isEmpty = false ∧ p.state_tax = none) := by
  rw [simulate]
  by_cases hn : n = 0
  · rw [if_pos hn]
    simp only [Option.isSome_none, Bool.false_eq_true, false_iff]
    intro h
    exact h.1 hn
  rw [if_neg hn]
  by_cases ha : (ages_list p).isEmpty
  · rw [if_pos ha]
    simp only [Option.isSome_none, Bool.false_eq_true, false_iff]
    intro h
    rw [h.2.1] at ha
    exact Bool.false_ne_true ha
  rw [if_neg ha]
  by_cases hs : p.state_tax.isSome
  · rw [if_pos hs]
    simp only [Option.isSome_none, Bool.false_eq_true, false_iff]
    intro h
    rw [h.2.2] at hs
    exact Bool.false_ne_true hs
  · rw [if_neg hs]
    constructor
    · intro _
      exact ⟨hn, Bool.eq_false_iff.mpr ha, Option.not_isSome_iff_eq_none.mp hs⟩
    · intro _
      rfl
lemma cap_gains_closed (g : ℚ) (hg : 0 < g) :
    compute_capital_gains_tax g =
      min (max (g - 48350) 0) 485050 * (15/100) + max (g - 533400) 0 * (20/100) := by
  simp only [compute_capital_gains_tax, cap_gains_brackets, cap_gains_loop]
  norm_num
  rcases le_or_lt g 48350 with h1 | h1 <;> rcases le_or_lt g 533400 with h2 | h2 <;>
      rw [min_def, max_def, max_def] <;> split_ifs <;>
      first
        | linarith
        | (rw [min_def] at *; split_ifs at * <;> linarith)

lemma cap_gains_nonneg (g : ℚ) : 0 ≤ compute_capital_gains_tax g := by
  rcases le_or_lt g 0 with h | h
  · unfold compute_capital_gains_tax
    rw [if_pos h]
  · rw [cap_gains_closed g h]
    have h1 : (0:ℚ) ≤ min (max (g - 48350) 0) 485050 :=
      le_min (le_max_right _ _) (by norm_num)
    have h2 : (0:ℚ) ≤ max (g - 533400) 0 := le_max_right _ _
    nlinarith

lemma cap_gains_le_fifth (g : ℚ) (hg : 0 ≤ g) : compute_capital_gains_tax g ≤ g / 5 := by
  rcases eq_or_lt_of_le hg with h | h
  · unfold compute_capital_gains_tax
    rw [if_pos (le_of_eq h.symm)]
    linarith
  · rw [cap_gains_closed g h]
    rcases le_or_lt g 48350 with a | a
    · rw [max_eq_right (by linarith : g - 48350 ≤ (0:ℚ)),
        min_eq_left (by norm_num : (0:ℚ) ≤ 485050),
        max_eq_right (by linarith : g - 533400 ≤ (0:ℚ))]
      linarith
    · rcases le_or_lt g 533400 with b | b
      · rw [max_eq_left (by linarith : (0:ℚ) ≤ g - 48350),
          min_eq_left (by linarith : g - 48350 ≤ (485050:ℚ)),
          max_eq_right (by linarith : g - 533400 ≤ (0:ℚ))]
        linarith
      · rw [max_eq_left (by linarith : (0:ℚ) ≤ g - 48350),
          min_eq_right (by linarith : (485050:ℚ) ≤ g - 48350),
          max_eq_left (by linarith : (0:ℚ) ≤ g - 533400)]
        linarith

lemma cap_gains_lt (g : ℚ) (hg : 0 < g) : compute_capital_gains_tax g < g :=
  lt_of_le_of_lt (cap_gains_le_fifth g hg.le) (by linarith)

lemma cover_need_nonneg (rate : ℚ) :
    ∀ (fuel : ℕ) (s : CoverState),
      0 ≤ s.need → 0 ≤ s.m.cash → 0 ≤ s.m.taxable → 0 ≤ s.m.basis → 0 ≤ s.m.pre →
      0 ≤ s.m.roth →
      0 ≤ (cover_need rate fuel s).1.need ∧ 0 ≤ (cover_need rate fuel s).1.m.cash ∧
      0 ≤ (cover_need rate fuel s).1.m.taxable ∧ 0 ≤ (cover_need rate fuel s).1.m.basis ∧
      0 ≤ (cover_need rate fuel s).1.m.pre ∧ 0 ≤ (cover_need rate fuel s).1.m.roth
  | 0, s, h0, h1, h2, h3, h4, h5 => by
    rw [cover_need]
    exact ⟨h0, h1, h2, h3, h4, h5⟩
  | (fuel+1), s, h0, h1, h2, h3, h4, h5 => by
    rw [cover_need]
    by_cases hc1 : s.need ≤ cover_eps
    · rw [if_pos hc1]
      exact ⟨h0, h1, h2, h3, h4, h5⟩
    rw [if_neg hc1]
    have hneed : (0:ℚ) < s.need := lt_of_lt_of_le (by norm_num [cover_eps]) (not_le.mp hc1).le
    by_cases hc2 : 0 < min s.m.cash s.need
    · rw [if_pos hc2]
      refine cover_need_nonneg rate fuel _ ?_ ?_ h2 h3 h4 h5
      · show 0 ≤ s.need - min s.m.cash s.need
        have := min_le_right s.m.cash s.need
        linarith
      · show 0 ≤ s.m.cash - min s.m.cash s.need
        have := min_le_left s.m.cash s.need
        linarith
    rw [if_neg hc2]
    by_cases hc3 : 0 < s.m.taxable
    · rw [if_pos hc3]
      have hgrosst : min s.m.taxable s.need ≤ s.m.taxable := min_le_left _ _
      have hgrossn : min s.m.taxable s.need ≤ s.need := min_le_right _ _
      refine cover_need_nonneg rate fuel _ ?_ h1 ?_ ?_ h4 h5
      · show 0 ≤ s.need - min s.m.taxable s.need +
          (if 0 < compute_capital_gains_tax
              (min s.m.taxable s.need - min s.m.taxable s.need * (s.m.basis / s.m.taxable))
            then compute_capital_gains_tax
              (min s.m.taxable s.need - min s.m.taxable s.need * (s.m.basis / s.m.taxable))
            else 0)
        split_ifs with hcg
        · linarith
        · linarith
      · show 0 ≤ s.m.taxable - min s.m.taxable s.need
        linarith
      · show 0 ≤ s.m.basis - min s.m.taxable s.need * (s.m.basis / s.m.taxable)
        have step : min s.m.taxable s.need * (s.m.basis / s.m.taxable) ≤
            s.m.taxable * (s.m.basis / s.m.taxable) :=
          mul_le_mul_of_nonneg_right hgrosst (div_nonneg h3 hc3.le)
        have hcancel : s.m.taxable * (s.m.basis / s.m.taxable) = s.m.basis := by
          rw [mul_comm, div_mul_cancel₀ _ (ne_of_gt hc3)]
        linarith
    rw [if_neg hc3]
    by_cases hc4 : 0 < s.m.pre
    · rw [if_pos hc4]
      refine cover_need_nonneg rate fuel _ ?_ h1 h2 h3 ?_ h5
      · show 0 ≤ s.need -
          min s.m.pre (if rate < 1 then s.need / (1 - rate) else s.need) * (1 - rate)
        split_ifs with hr
        · have h1r : (0:ℚ) < 1 - rate := by linarith
          have hm : min s.m.pre (s.need / (1 - rate)) ≤ s.need / (1 - rate) :=
            min_le_right _ _
          have := (le_div_iff₀ h1r).mp hm
          linarith
        · have h1r : 1 - rate ≤ 0 := by linarith [not_lt.mp hr]
          have hg0 : 0 ≤ min s.m.pre s.need := le_min hc4.le hneed.le
          nlinarith
      · show 0 ≤ s.m.pre - min s.m.pre (if rate < 1 then s.need / (1 - rate) else s.need)
        have := min_le_left s.m.pre (if rate < 1 then s.need / (1 - rate) else s.need)
        linarith
    rw [if_neg hc4]
    by_cases hc5 : 0 < s.m.roth
    · rw [if_pos hc5]
      refine cover_need_nonneg rate fuel _ ?_ h1 h2 h3 h4 ?_
      · show 0 ≤ s.need - min s.m.roth s.need
        have := min_le_right s.m.roth s.need
        linarith
      · show 0 ≤ s.m.roth - min s.m.roth s.need
        have := min_le_left s.m.roth s.need
        linarith
    rw [if_neg hc5]
    exact ⟨h0, h1, h2, h3, h4, h5⟩

/-- C3 (amended): every withdrawal draw of the deficit-covering loop
`_cover_need` is clamped to the current balance of the account it draws
from, so the loop preserves non-negativity of the outstanding need, of all
four account balances and of the taxable basis; the Roth-conversion tax
deduction, by contrast, is not clamped (see the counterexample). -/
theorem C3_cover_nonneg (rate : ℚ) (fuel : ℕ) (s : CoverState)
    (h0 : 0 ≤ s.need) (h1 : 0 ≤ s.m.cash) (h2 : 0 ≤ s.m.taxable) (h3 : 0 ≤ s.m.basis)
    (h4 : 0 ≤ s.m.pre) (h5 : 0 ≤ s.m.roth) :
    0 ≤ (cover_need rate fuel s).1.need ∧ 0 ≤ (cover_need rate fuel s).1.m.cash ∧
    0 ≤ (cover_need rate fuel s).1.m.taxable ∧ 0 ≤ (cover_need rate fuel s).1.m.basis ∧
    0 ≤ (cover_need rate fuel s).1.m.pre ∧ 0 ≤ (cover_need rate fuel s).1.m.roth :=
  cover_need_nonneg rate fuel s h0 h1 h2 h3 h4 h5

/-- C3 (witness): the clamping theorem applied to a concrete deficit of 1
against a pre-tax balance of 100. -/
theorem C3_cover_nonneg_witness :
    ((0:ℚ) ≤ 1 ∧ (0:ℚ) ≤ 100) ∧
    (0 ≤ (cover_need 0 2 ⟨1, ⟨100, 0, 0, 0, 0, 0, 0⟩, 0⟩).1.need ∧
     0 ≤ (cover_need 0 2 ⟨1, ⟨100, 0, 0, 0, 0, 0, 0⟩, 0⟩).1.m.cash ∧
     0 ≤ (cover_need 0 2 ⟨1, ⟨100, 0, 0, 0, 0, 0, 0⟩, 0⟩).1.m.taxable ∧
     0 ≤ (cover_need 0 2 ⟨1, ⟨100, 0, 0, 0, 0, 0, 0⟩, 0⟩).1.m.basis ∧
     0 ≤ (cover_need 0 2 ⟨1, ⟨100, 0, 0, 0, 0, 0, 0⟩, 0⟩).1.m.pre ∧
     0 ≤ (cover_need 0 2 ⟨1, ⟨100, 0, 0, 0, 0, 0, 0⟩, 0⟩).1.m.roth) :=
  ⟨⟨by norm_num, by norm_num⟩,
   C3_cover_nonneg 0 2 ⟨1, ⟨100, 0, 0, 0, 0, 0, 0⟩, 0⟩ (by norm_num) (by norm_num)
     (by norm_num) (by norm_num) (by norm_num) (by norm_num)⟩

/-- Plan exhibiting the unclamped conversion-tax deduction: full Roth
conversion of a 100000 pre-tax balance at a 30 % conversion tax paid from a
taxable account holding 0. -/
def planC3 : Plan :=
  { current_age := 65, retire_age := 65, end_age := 65,
    pre_tax := { balance := 100000, mean_return := some 0, stdev_return := some 0 },
    returns_correlated := false,
    roth_conversion := some { start_age := 65, end_age := 65, annual_cap := 1,
                              tax_rate := 3/10 } }

lemma planC3_ages : ages_list planC3 = [65] := rfl

lemma planC3_step65 (z : ℕ → ℚ) (fuel : ℕ) :
    year_step planC3 z fuel 65 ⟨100000, 0, 0, 0, 0, 0, 0, 0⟩ =
      (⟨0, 100000, -30000, 0, 0, 0, 0, 3⟩,
       ⟨65, 0, 0, 0, 30000, 100000, 30000, 0, 100000, -30000, 0, 70000⟩) := by
  norm_num [year_step, cover_need, retire_phase, rmd_step,
    strat_step, cover_eps, special_at, under_limit, conv_gross, decide_conversion,
    Plan.pre_rate, Plan.taxable_rate, Plan.ss_annual, Plan.ss_claim_age, rmd_start_age,
    planC3]

lemma planC3_path (z : ℕ → ℚ) (fuel : ℕ) :
    simulate_path planC3 z fuel 0 =
      ([⟨65, 0, 0, 0, 30000, 100000, 30000, 0, 100000, -30000, 0, 70000⟩],
       ⟨0, 100000, -30000, 0, 0, 0, 0, 3⟩) := by
  have hinit : (⟨planC3.pre_tax.balance, planC3.roth.balance, planC3.taxable.balance,
      planC3.taxable.basis.getD planC3.taxable.balance, planC3.cash.balance, planC3.salary,
      planC3.roth.annual_limit.getD planC3.roth.contribution, 0⟩ : PathState) =
      ⟨100000, 0, 0, 0, 0, 0, 0, 0⟩ := rfl
  simp only [simulate_path, planC3_ages, List.foldl_cons, List.foldl_nil, hinit,
    planC3_step65 z fuel, List.nil_append]

/-- C3 (counterexample): with a full Roth conversion taxed at 30 % and paid
from an empty taxable account, the conversion tax of 30000 is deducted from
a zero balance, and the taxable account ends the year at -30000 in the
ledger — a debit exceeding the balance and a negative year-end balance. -/
theorem C3_counterexample :
    (((simulate_path planC3 (fun _ => 0) 2 0).1.map (fun r => r.taxable)).head? =
      some (-30000)) ∧ ¬ ((0:ℚ) ≤ -30000) := by
  rw [planC3_path (fun _ => 0) 2]
  norm_num

lemma strat_step_pre_le (strat : Strategy) (rate rate_t blimit rmd_gross need : ℚ)
    (s : MidState) (hneed : 0 ≤ need) (hpre : 0 ≤ s.pre) (htax : 0 ≤ s.taxable)
    (hr : rate < 1) (hrt : rate_t < 1) :
    (strat_step strat rate rate_t blimit rmd_gross need s).1.pre ≤ s.pre := by
  cases strat with
  | standard =>
    simp only [strat_step, if_pos hr, if_pos hrt]
    by_cases hn1 : 0 < need - min s.taxable (need / (1 - rate_t)) * (1 - rate_t)
    · rw [if_pos hn1]
      show s.pre - min s.pre ((need - min s.taxable (need / (1 - rate_t)) * (1 - rate_t)) / (1 - rate)) ≤ s.pre
      have h1r : (0:ℚ) < 1 - rate := by linarith
      have : 0 ≤ min s.pre ((need - min s.taxable (need / (1 - rate_t)) * (1 - rate_t)) / (1 - rate)) :=
        le_min hpre (le_of_lt (div_pos hn1 h1r))
      linarith
    · rw [if_neg hn1]
  | proportional =>
    simp only [strat_step, if_pos hr, if_pos hrt]
    by_cases htn : 0 < s.taxable * (1 - rate_t) + s.pre * (1 - rate)
    · rw [if_pos htn]
      have h1r : (0:ℚ) < 1 - rate := by linarith
      have h1rt : (0:ℚ) < 1 - rate_t := by linarith
      -- need1 ≥ 0
      have hgt_le : min s.taxable (need * (s.taxable * (1 - rate_t) /
          (s.taxable * (1 - rate_t) + s.pre * (1 - rate))) / (1 - rate_t)) ≤
          need * (s.taxable * (1 - rate_t) /
            (s.taxable * (1 - rate_t) + s.pre * (1 - rate))) / (1 - rate_t) :=
        min_le_right _ _
      have hdtn_le : need * (s.taxable * (1 - rate_t) /
          (s.taxable * (1 - rate_t) + s.pre * (1 - rate))) ≤ need := by
        have hratio : s.taxable * (1 - rate_t) /
            (s.taxable * (1 - rate_t) + s.pre * (1 - rate)) ≤ 1 := by
          rw [div_le_one htn]
          nlinarith
        have hratio0 : 0 ≤ s.taxable * (1 - rate_t) /
            (s.taxable * (1 - rate_t) + s.pre * (1 - rate)) :=
          div_nonneg (by nlinarith) htn.le
        nlinarith
      have hneed1 : 0 ≤ need - min s.taxable (need * (s.taxable * (1 - rate_t) /
          (s.taxable * (1 - rate_t) + s.pre * (1 - rate))) / (1 - rate_t)) * (1 - rate_t) := by
        have := (le_div_iff₀ h1rt).mp hgt_le
        linarith
      show s.pre - min (s.pre * (1 - rate)) _ / (1 - rate) ≤ s.pre
      have hnp : 0 ≤ min (s.pre * (1 - rate)) (need - min s.taxable (need * (s.taxable * (1 - rate_t) /
          (s.taxable * (1 - rate_t) + s.pre * (1 - rate))) / (1 - rate_t)) * (1 - rate_t)) :=
        le_min (by nlinarith) hneed1
      have : 0 ≤ min (s.pre * (1 - rate)) (need - min s.taxable (need * (s.taxable * (1 - rate_t) /
          (s.taxable * (1 - rate_t) + s.pre * (1 - rate))) / (1 - rate_t)) * (1 - rate_t)) / (1 - rate) :=
        div_nonneg hnp h1r.le
      linarith
    · rw [if_neg htn]
  | tax_bracket =>
    simp only [strat_step, if_pos hr, if_pos hrt]
    by_cases hb : 0 < max 0 (blimit - rmd_gross) ∧ 0 < need
    · rw [if_pos hb]
      by_cases hn2 : 0 < need - min s.pre (min (max 0 (blimit - rmd_gross)) (need / (1 - rate))) * (1 - rate)
      · rw [if_pos hn2]
        show s.pre - min s.pre (min (max 0 (blimit - rmd_gross)) (need / (1 - rate))) ≤ s.pre
        have h1r : (0:ℚ) < 1 - rate := by linarith
        have : 0 ≤ min s.pre (min (max 0 (blimit - rmd_gross)) (need / (1 - rate))) :=
          le_min hpre (le_min hb.1.le (div_nonneg hneed h1r.le))
        linarith
      · rw [if_neg hn2]
        show s.pre - min s.pre (min (max 0 (blimit - rmd_gross)) (need / (1 - rate))) ≤ s.pre
        have h1r : (0:ℚ) < 1 - rate := by linarith
        have : 0 ≤ min s.pre (min (max 0 (blimit - rmd_gross)) (need / (1 - rate))) :=
          le_min hpre (le_min hb.1.le (div_nonneg hneed h1r.le))
        linarith
    · rw [if_neg hb]
      by_cases hn2 : 0 < need
      · rw [if_pos hn2]
      · rw [if_neg hn2]

lemma rmd_step_eval (rate : ℚ) (rmd_start age : ℤ) (prior expenses : ℚ) (s : MidState)
    (h1 : rmd_start ≤ age) (h2 : 0 < s.pre) :
    rmd_step rate rmd_start age prior (max 0 expenses) s =
      (⟨s.pre - min (compute_rmd prior age) s.pre, s.roth, s.taxable, s.basis,
        (if max 0 expenses ≤ min (compute_rmd prior age) s.pre * (1 - rate)
         then s.cash + (min (compute_rmd prior age) s.pre * (1 - rate) - max 0 expenses)
         else s.cash),
        s.wdr + min (compute_rmd prior age) s.pre,
        s.wtax + min (compute_rmd prior age) s.pre * rate⟩,
       (if max 0 expenses ≤ min (compute_rmd prior age) s.pre * (1 - rate) then 0
        else max 0 expenses - min (compute_rmd prior age) s.pre * (1 - rate)),
       min (compute_rmd prior age) s.pre) := by
  by_cases h : max 0 expenses ≤ min (compute_rmd prior age) s.pre * (1 - rate)
  · simp only [rmd_step, if_pos (And.intro h1 h2), if_pos h]
  · simp only [rmd_step, if_pos (And.intro h1 h2), if_neg h]

lemma retire_phase_pre_le (strat : Strategy) (rate rate_t blimit : ℚ)
    (rmd_start age : ℤ) (prior expenses : ℚ) (s : MidState)
    (h1 : rmd_start ≤ age) (h2 : 0 < s.pre)
    (hr : rate < 1) (hrt : rate_t < 1) (htax : 0 ≤ s.taxable) :
    (retire_phase strat rate rate_t blimit rmd_start age prior expenses s).pre ≤
      s.pre - min (compute_rmd prior age) s.pre := by
  have hgle : min (compute_rmd prior age) s.pre ≤ s.pre := min_le_right _ _
  unfold retire_phase
  rw [rmd_step_eval rate rmd_start age prior expenses s h1 h2]
  by_cases hnet : max 0 expenses ≤ min (compute_rmd prior age) s.pre * (1 - rate)
  · simp only [if_pos hnet, lt_self_iff_false, if_false]
    exact le_rfl
  · simp only [if_neg hnet]
    rw [if_pos (by linarith [not_le.mp hnet] :
      (0:ℚ) < max 0 expenses - min (compute_rmd prior age) s.pre * (1 - rate))]
    have hstrat := strat_step_pre_le strat rate rate_t blimit
      (min (compute_rmd prior age) s.pre)
      (max 0 expenses - min (compute_rmd prior age) s.pre * (1 - rate))
      ⟨s.pre - min (compute_rmd prior age) s.pre, s.roth, s.taxable, s.basis, s.cash,
       s.wdr + min (compute_rmd prior age) s.pre,
       s.wtax + min (compute_rmd prior age) s.pre * rate⟩
      (by linarith [not_le.mp hnet]) (by simp only []; linarith) (by simp only []; exact htax)
      hr hrt
    split_ifs <;> exact hstrat

lemma retire_phase_cash_excess (strat : Strategy) (rate rate_t blimit : ℚ)
    (rmd_start age : ℤ) (prior expenses : ℚ) (s : MidState)
    (h1 : rmd_start ≤ age) (h2 : 0 < s.pre)
    (hnet : max 0 expenses ≤ min (compute_rmd prior age) s.pre * (1 - rate)) :
    (retire_phase strat rate rate_t blimit rmd_start age prior expenses s).cash =
      s.cash + (min (compute_rmd prior age) s.pre * (1 - rate) - max 0 expenses) := by
  unfold retire_phase
  rw [rmd_step_eval rate rmd_start age prior expenses s h1 h2]
  simp only [if_pos hnet, lt_self_iff_false, if_false]

/-- C4 (amended): in a retirement year with `age ≥ rmd_start` and a
positive pre-tax balance at the RMD point, the retirement-withdrawal block
debits the pre-tax account by at least
`min(compute_rmd(prior_balance, age), current pre-tax balance)` (the RMD is
clamped to the current balance), and when the net RMD covers the whole
expense need the excess net proceeds are added to the cash account
exactly. -/
theorem C4_rmd_floor (strat : Strategy) (rate rate_t blimit : ℚ)
    (rmd_start age : ℤ) (prior expenses : ℚ) (s : MidState)
    (h1 : rmd_start ≤ age) (h2 : 0 < s.pre)
    (hr : rate < 1) (hrt : rate_t < 1) (htax : 0 ≤ s.taxable) :
    (retire_phase strat rate rate_t blimit rmd_start age prior expenses s).pre ≤
      s.pre - min (compute_rmd prior age) s.pre ∧
    (max 0 expenses ≤ min (compute_rmd prior age) s.pre * (1 - rate) →
      (retire_phase strat rate rate_t blimit rmd_start age prior expenses s).cash =
        s.cash + (min (compute_rmd prior age) s.pre * (1 - rate) - max 0 expenses)) :=
  ⟨retire_phase_pre_le strat rate rate_t blimit rmd_start age prior expenses s h1 h2 hr hrt htax,
   fun hnet => retire_phase_cash_excess strat rate rate_t blimit rmd_start age prior
     expenses s h1 h2 hnet⟩

/-- C4 (witness): the RMD-floor theorem at age 75 with a 100000 prior
balance and the standard strategy. -/
theorem C4_rmd_floor_witness :
    ((72:ℤ) ≤ 75 ∧ (0:ℚ) < 100000 ∧ (1/5:ℚ) < 1 ∧ (0:ℚ) ≤ 0) ∧
    ((retire_phase .standard (1/5) (1/5) 0 72 75 100000 0
        ⟨100000, 0, 0, 0, 0, 0, 0⟩).pre ≤ 100000 - min (compute_rmd 100000 75) 100000 ∧
     (max 0 (0:ℚ) ≤ min (compute_rmd 100000 75) 100000 * (1 - 1/5) →
      (retire_phase .standard (1/5) (1/5) 0 72 75 100000 0
        ⟨100000, 0, 0, 0, 0, 0, 0⟩).cash =
        0 + (min (compute_rmd 100000 75) 100000 * (1 - 1/5) - max 0 0))) :=
  ⟨⟨by decide, by norm_num, by norm_num, le_rfl⟩,
   C4_rmd_floor .standard (1/5) (1/5) 0 72 75 100000 0 ⟨100000, 0, 0, 0, 0, 0, 0⟩
     (by decide) (by norm_num) (by norm_num) (by norm_num) (by norm_num)⟩

/-- Plan showing the RMD gate being skipped: a full (untaxed) Roth
conversion drains the pre-tax balance before the RMD check, so no RMD is
taken at all even though `compute_rmd(prior_balance, 75) > 0`. -/
def planC4 : Plan :=
  { current_age := 75, retire_age := 75, end_age := 75,
    pre_tax := { balance := 100000, mean_return := some 0, stdev_return := some 0 },
    returns_correlated := false,
    roth_conversion := some { start_age := 75, end_age := 75, annual_cap := 1,
                              tax_rate := 0 } }

lemma planC4_ages : ages_list planC4 = [75] := rfl

lemma planC4_step75 (z : ℕ → ℚ) (fuel : ℕ) :
    year_step planC4 z fuel 75 ⟨100000, 0, 0, 0, 0, 0, 0, 0⟩ =
      (⟨0, 100000, 0, 0, 0, 0, 0, 3⟩,
       ⟨75, 0, 0, 0, 0, 100000, 0, 0, 100000, 0, 0, 100000⟩) := by
  norm_num [year_step, cover_need, retire_phase, rmd_step,
    strat_step, cover_eps, special_at, under_limit, conv_gross, decide_conversion,
    Plan.pre_rate, Plan.taxable_rate, Plan.ss_annual, Plan.ss_claim_age, rmd_start_age,
    planC4]

lemma planC4_path (z : ℕ → ℚ) (fuel : ℕ) :
    simulate_path planC4 z fuel 0 =
      ([⟨75, 0, 0, 0, 0, 100000, 0, 0, 100000, 0, 0, 100000⟩],
       ⟨0, 100000, 0, 0, 0, 0, 0, 3⟩) := by
  have hinit : (⟨planC4.pre_tax.balance, planC4.roth.balance, planC4.taxable.balance,
      planC4.taxable.basis.getD planC4.taxable.balance, planC4.cash.balance, planC4.salary,
      planC4.roth.annual_limit.getD planC4.roth.contribution, 0⟩ : PathState) =
      ⟨100000, 0, 0, 0, 0, 0, 0, 0⟩ := rfl
  simp only [simulate_path, planC4_ages, List.foldl_cons, List.foldl_nil, hinit,
    planC4_step75 z fuel, List.nil_append]

/-- C4 (counterexample): on `planC4` the year withdraws 0 from the
pre-tax account even though age 75 is past the RMD start age and
`compute_rmd(100000, 75) > 0` — the pre-tax balance was emptied by the
Roth conversion before the RMD gate, which requires a positive current
balance. -/
theorem C4_counterexample :
    (((simulate_path planC4 (fun _ => 0) 2 0).1.map (fun r => r.withdrawals)).head? =
      some 0) ∧ ¬ (compute_rmd 100000 75 ≤ 0) := by
  rw [planC4_path (fun _ => 0) 2]
  norm_num [compute_rmd, uniform_lifetime_table, List.find?]

/-- Helper: a clamp of the form `max 0 (min 0 x)` is zero. -/
lemma max0_min0 (x : ℚ) : max 0 (min 0 x) = 0 := max_eq_left (min_le_left 0 x)

set_option maxHeartbeats 2000000 in
/-- Closed form of a merged-account working year with a surplus: the
pre-tax contribution is added to the post-return balance (it earns no
return), the other accounts only earn their returns, and the remaining
surplus is swept to cash. -/
lemma year_step_presave (p : Plan) (z : ℕ → ℚ) (fuel : ℕ) (age : ℤ) (s : PathState)
    (hage : age < p.retire_age) (hss : p.social_security = none)
    (hrc : p.roth_conversion = none) (hst : p.state_tax = none)
    (hroth : p.roth.contribution = 0) (hmax : p.roth.max_out = false)
    (htaxc : p.taxable.contribution = 0) (hc0 : 0 ≤ p.pre_tax.contribution)
    (hsal : 0 ≤ s.salary) (hrate : 0 ≤ p.income_tax_rate)
    (htax : s.salary * p.income_tax_rate <
      s.salary - (p.baseline + special_at p.special age) - p.pre_tax.contribution) :
    (year_step p z fuel age s).1.pre =
      (if p.returns_correlated then
        s.pre * (1 + (p.roth.mean_return.getD (6/100)
            + p.roth.stdev_return.getD (12/100) * z s.k)
          + (p.pre_tax.mean_return.getD (5/100) - p.roth.mean_return.getD (6/100)))
      else s.pre * (1 + (p.pre_tax.mean_return.getD (5/100)
          + p.pre_tax.stdev_return.getD (10/100) * z s.k)))
        + p.pre_tax.contribution ∧
    (year_step p z fuel age s).1.roth =
      (if p.returns_correlated then
        s.roth * (1 + (p.roth.mean_return.getD (6/100)
            + p.roth.stdev_return.getD (12/100) * z s.k)
          + (p.roth.mean_return.getD (6/100) - p.roth.mean_return.getD (6/100)))
      else s.roth * (1 + (p.roth.mean_return.getD (6/100)
          + p.roth.stdev_return.getD (12/100) * z (s.k + 1)))) ∧
    (year_step p z fuel age s).1.taxable =
      (if p.returns_correlated then
        s.taxable * (1 + (p.roth.mean_return.getD (6/100)
            + p.roth.stdev_return.getD (12/100) * z s.k)
          + (p.taxable.mean_return.getD (6/100) - p.roth.mean_return.getD (6/100)))
      else s.taxable * (1 + (p.taxable.mean_return.getD (6/100)
          + p.taxable.stdev_return.getD (12/100) * z (s.k + 2)))) ∧
    (year_step p z fuel age s).1.cash =
      s.cash + (s.salary - (p.baseline + special_at p.special age)
        - p.pre_tax.contribution - s.salary * p.income_tax_rate) := by
  have hT : 0 ≤ s.salary * p.income_tax_rate := mul_nonneg hsal hrate
  have hpos : 0 < s.salary - (p.baseline + special_at p.special age) := by linarith
  have hann : Plan.ss_annual p = 0 := by simp [Plan.ss_annual, hss]
  have hcontr : age < p.retire_age ∧
      0 < s.salary - (p.baseline + special_at p.special age) := ⟨hage, hpos⟩
  have e1 : min (s.salary - (p.baseline + special_at p.special age)) p.pre_tax.contribution
      = p.pre_tax.contribution := min_eq_right (by linarith)
  have e2 : min (s.salary - (p.baseline + special_at p.special age)
      - p.pre_tax.contribution) 0 = 0 := min_eq_right (by linarith)
  have hncov : ¬ (s.salary - (p.baseline + special_at p.special age)
      - p.pre_tax.contribution - s.salary * p.income_tax_rate < 0) := by linarith
  have hsweep : 0 < s.salary - (p.baseline + special_at p.special age)
      - p.pre_tax.contribution - s.salary * p.income_tax_rate := by linarith
  have hret : ¬ (p.retire_age ≤ age) := not_le.mpr hage
  cases hu : under_limit s.salary p.roth_income_limit <;>
    cases hcorr : p.returns_correlated <;>
    simp only [year_step, hage, hann, ite_self, add_zero, hrc, hst, hmax, hroth, htaxc,
      Bool.false_eq_true, if_false, if_true, hcontr, e1, e2, sub_zero, hu, hcorr, hncov,
      hsweep, hret, conv_gross, decide_conversion, max0_min0, lt_self_iff_false,
      mul_zero, zero_mul, and_self]

/-- C6 (amended): in the merged-account simulator, a pre-retirement year
with enough surplus realizes the pre-tax contribution at year-end after the
return draw: compared to the same plan with a zero contribution, the
contribution moves dollar-for-dollar from cash into pre-tax with no return
multiplication, and the Roth/taxable balances are unchanged.  In the
split-account simulator contributions are instead added before the return
draw and do earn the year's return (see the counterexample). -/
theorem C6_contribution_timing (p : Plan) (z : ℕ → ℚ) (fuel : ℕ) (age : ℤ) (s : PathState)
    (hage : age < p.retire_age) (hss : p.social_security = none)
    (hrc : p.roth_conversion = none) (hst : p.state_tax = none)
    (hroth : p.roth.contribution = 0) (hmax : p.roth.max_out = false)
    (htaxc : p.taxable.contribution = 0) (hc0 : 0 ≤ p.pre_tax.contribution)
    (hsal : 0 ≤ s.salary) (hrate : 0 ≤ p.income_tax_rate)
    (htax : s.salary * p.income_tax_rate <
      s.salary - (p.baseline + special_at p.special age) - p.pre_tax.contribution) :
    (year_step p z fuel age s).1.pre =
      (year_step { p with pre_tax := { p.pre_tax with contribution := 0 } } z fuel age s).1.pre
        + p.pre_tax.contribution ∧
    (year_step p z fuel age s).1.cash =
      (year_step { p with pre_tax := { p.pre_tax with contribution := 0 } } z fuel age s).1.cash
        - p.pre_tax.contribution ∧
    (year_step p z fuel age s).1.roth =
      (year_step { p with pre_tax := { p.pre_tax with contribution := 0 } } z fuel age s).1.roth ∧
    (year_step p z fuel age s).1.taxable =
      (year_step { p with pre_tax := { p.pre_tax with contribution := 0 } } z fuel age s).1.taxable := by
  obtain ⟨a1, a2, a3, a4⟩ := year_step_presave p z fuel age s hage hss hrc hst hroth hmax
    htaxc hc0 hsal hrate htax
  obtain ⟨b1, b2, b3, b4⟩ := year_step_presave
    { p with pre_tax := { p.pre_tax with contribution := 0 } } z fuel age s
    hage hss hrc hst hroth hmax htaxc le_rfl hsal hrate (by simp only []; linarith)
  rw [a1, a2, a3, a4, b1, b2, b3, b4]
  refine ⟨by ring, by ring, rfl, rfl⟩

def planC6w : Plan :=
  { current_age := 30, retire_age := 65, end_age := 30,
    pre_tax := { contribution := 1000 },
    salary := 10000, baseline := 4000,
    returns_correlated := false }

/-- C6 (witness): the timing theorem on a concrete working year (salary
10000, expenses 4000, pre-tax contribution 1000). -/
theorem C6_contribution_timing_witness :
    ((30:ℤ) < 65 ∧ (0:ℚ) ≤ 1000 ∧
     (10000:ℚ) * 0 < 10000 - (4000 + special_at [] 30) - 1000) ∧
    ((year_step planC6w (fun _ => 0) 2 30 ⟨0, 0, 0, 0, 0, 10000, 0, 0⟩).1.pre =
      (year_step { planC6w with pre_tax := { planC6w.pre_tax with contribution := 0 } }
        (fun _ => 0) 2 30 ⟨0, 0, 0, 0, 0, 10000, 0, 0⟩).1.pre + 1000 ∧
     (year_step planC6w (fun _ => 0) 2 30 ⟨0, 0, 0, 0, 0, 10000, 0, 0⟩).1.cash =
      (year_step { planC6w with pre_tax := { planC6w.pre_tax with contribution := 0 } }
        (fun _ => 0) 2 30 ⟨0, 0, 0, 0, 0, 10000, 0, 0⟩).1.cash - 1000 ∧
     (year_step planC6w (fun _ => 0) 2 30 ⟨0, 0, 0, 0, 0, 10000, 0, 0⟩).1.roth =
      (year_step { planC6w with pre_tax := { planC6w.pre_tax with contribution := 0 } }
        (fun _ => 0) 2 30 ⟨0, 0, 0, 0, 0, 10000, 0, 0⟩).1.roth ∧
     (year_step planC6w (fun _ => 0) 2 30 ⟨0, 0, 0, 0, 0, 10000, 0, 0⟩).1.taxable =
      (year_step { planC6w with pre_tax := { planC6w.pre_tax with contribution := 0 } }
        (fun _ => 0) 2 30 ⟨0, 0, 0, 0, 0, 10000, 0, 0⟩).1.taxable) :=
  ⟨⟨by decide, by norm_num, by norm_num [special_at]⟩,
   C6_contribution_timing planC6w (fun _ => 0) 2 30 ⟨0, 0, 0, 0, 0, 10000, 0, 0⟩
     (by decide) rfl rfl rfl rfl rfl rfl (by norm_num [planC6w]) (by norm_num)
     (by norm_num [planC6w]) (by norm_num [planC6w, special_at])⟩

/-- Split-account plan whose only activity is a 5000 contribution to the
pre-tax 401k in a year with a deterministic 10 % return. -/
def planC6split : SplitPlan :=
  { current_age := 30, retire_age := 65, end_age := 30,
    pre_tax_401k := { contribution := 5000, mean_return := some (1/10),
                      stdev_return := some 0 },
    salary := 10000,
    returns_correlated := false }

def planC6split0 : SplitPlan :=
  { planC6split with
    pre_tax_401k := { planC6split.pre_tax_401k with contribution := 0 } }

lemma planC6split_ages : split_ages planC6split = [30] := rfl

lemma planC6split_step (z : ℕ → ℚ) :
    split_year_step planC6split z 30 ⟨0, 0, 0, 0, 0, 0, 10000, 0⟩ =
      (⟨5500, 0, 0, 0, 0, 5000, 10000, 5⟩,
       ⟨30, 10000, 0, 0, 0, 0, 0, 5500, 0, 0, 5000, 10500⟩) := by
  norm_num [split_year_step, split_contributions, split_cover, split_retire,
    take_from_pre_tax, take_from_roth, SplitState.preTot, SplitState.rothTot,
    contribution_for_age, special_at, under_limit, decide_conversion, rmd_start_age,
    planC6split]

lemma planC6split0_step (z : ℕ → ℚ) :
    split_year_step planC6split0 z 30 ⟨0, 0, 0, 0, 0, 0, 10000, 0⟩ =
      (⟨0, 0, 0, 0, 0, 10000, 10000, 5⟩,
       ⟨30, 10000, 0, 0, 0, 0, 0, 0, 0, 0, 10000, 10000⟩) := by
  norm_num [split_year_step, split_contributions, split_cover, split_retire,
    take_from_pre_tax, take_from_roth, SplitState.preTot, SplitState.rothTot,
    contribution_for_age, special_at, under_limit, decide_conversion, rmd_start_age,
    planC6split0, planC6split]

/-- C6 (counterexample): in `_simulate_path_split` the 5000 contribution
is added *before* the 10 % return, so the year ends with 5500 in the
pre-tax account — the contribution earned a return in the year it was made
(a zero-contribution run ends at 0, and 5500 differs from 0 + 5000). -/
theorem C6_counterexample :
    (((simulate_path_split planC6split (fun _ => 0) 0).1.map
        (fun r => r.pre_tax)).head? = some 5500) ∧
    (((simulate_path_split planC6split0 (fun _ => 0) 0).1.map
        (fun r => r.pre_tax)).head? = some 0) ∧
    (5500 : ℚ) ≠ 0 + 5000 := by
  have h1 : (⟨planC6split.pre_tax_401k.balance, planC6split.pre_tax_ira.balance,
      planC6split.roth_401k.balance, planC6split.roth_ira.balance,
      planC6split.taxable.balance, planC6split.cash_balance, planC6split.salary, 0⟩ :
      SplitState) = ⟨0, 0, 0, 0, 0, 0, 10000, 0⟩ := rfl
  have h2 : (⟨planC6split0.pre_tax_401k.balance, planC6split0.pre_tax_ira.balance,
      planC6split0.roth_401k.balance, planC6split0.roth_ira.balance,
      planC6split0.taxable.balance, planC6split0.cash_balance, planC6split0.salary, 0⟩ :
      SplitState) = ⟨0, 0, 0, 0, 0, 0, 10000, 0⟩ := rfl
  have e0 : split_ages planC6split0 = [30] := rfl
  refine ⟨?_, ?_, by norm_num⟩
  · simp only [simulate_path_split, planC6split_ages, List.foldl_cons, List.foldl_nil,
      h1, planC6split_step (fun _ => 0), List.nil_append]
    norm_num
  · simp only [simulate_path_split, e0, List.foldl_cons, List.foldl_nil,
      h2, planC6split0_step (fun _ => 0), List.nil_append]
    norm_num

/-- Family of plans, parametrised by the baseline expense, showing that
lowering expenses can lower the success probability: a smaller baseline
leaves a larger pre-tax balance at the conversion age, and the unclamped
conversion tax (`tax_rate` 4, paid from taxable) then debits more than the
extra balance is worth. -/
def planC7 (b : ℚ) : Plan :=
  { current_age := 74, retire_age := 75, end_age := 75,
    pre_tax := { contribution := 1000, mean_return := some 0, stdev_return := some 0,
                 withdrawal_tax_rate := some 0 },
    roth := { mean_return := some 0, stdev_return := some 0 },
    taxable := { balance := 200, mean_return := some 0, stdev_return := some 0,
                 withdrawal_tax_rate := some 0 },
    cash := { balance := 85 },
    salary := 100,
    baseline := b,
    returns_correlated := false,
    roth_conversion := some { start_age := 75, end_age := 75, annual_cap := 1,
                              tax_rate := 4 },
    strategy := .proportional }

lemma planC7_ages : ages_list (planC7 20) = [74, 75] := rfl

lemma planC7_step74_20 (z : ℕ → ℚ) :
    year_step (planC7 20) z 2 74 ⟨0, 0, 200, 200, 85, 100, 0, 0⟩ =
      (⟨80, 0, 200, 200, 85, 100, 0, 3⟩,
       ⟨74, 100, 20, 0, 0, 0, 0, 80, 0, 200, 85, 365⟩) := by
  norm_num [year_step, cover_need, retire_phase, rmd_step,
    strat_step, cover_eps, special_at, under_limit, conv_gross, decide_conversion,
    Plan.pre_rate, Plan.taxable_rate, Plan.ss_annual, Plan.ss_claim_age, rmd_start_age,
    planC7]

lemma planC7_step75_20 (z : ℕ → ℚ) :
    year_step (planC7 20) z 2 75 ⟨80, 0, 200, 200, 85, 100, 0, 3⟩ =
      (⟨0, 60, -120, 200, 65, 100, 0, 6⟩,
       ⟨75, 0, 20, 40, 320, 80, 320, 0, 60, -120, 65, 5⟩) := by
  norm_num [year_step, cover_need, retire_phase, rmd_step,
    strat_step, cover_eps, special_at, under_limit, conv_gross, decide_conversion,
    Plan.pre_rate, Plan.taxable_rate, Plan.ss_annual, Plan.ss_claim_age, rmd_start_age,
    planC7]

lemma planC7_path20 :
    simulate_path (planC7 20) (fun _ => 0) 2 0 =
      ([⟨74, 100, 20, 0, 0, 0, 0, 80, 0, 200, 85, 365⟩,
        ⟨75, 0, 20, 40, 320, 80, 320, 0, 60, -120, 65, 5⟩],
       ⟨0, 60, -120, 200, 65, 100, 0, 6⟩) := by
  have hinit : (⟨(planC7 20).pre_tax.balance, (planC7 20).roth.balance,
      (planC7 20).taxable.balance,
      (planC7 20).taxable.basis.getD (planC7 20).taxable.balance,
      (planC7 20).cash.balance, (planC7 20).salary,
      (planC7 20).roth.annual_limit.getD (planC7 20).roth.contribution, 0⟩ : PathState) =
      ⟨0, 0, 200, 200, 85, 100, 0, 0⟩ := rfl
  simp only [simulate_path, planC7_ages, List.foldl_cons, List.foldl_nil, hinit,
    planC7_step74_20 (fun _ => 0), List.nil_append]
  simp only [planC7_step75_20 (fun _ => 0), List.singleton_append]

lemma planC7_ages10 : ages_list (planC7 10) = [74, 75] := rfl

lemma planC7_step74_10 (z : ℕ → ℚ) :
    year_step (planC7 10) z 2 74 ⟨0, 0, 200, 200, 85, 100, 0, 0⟩ =
      (⟨90, 0, 200, 200, 85, 100, 0, 3⟩,
       ⟨74, 100, 10, 0, 0, 0, 0, 90, 0, 200, 85, 375⟩) := by
  norm_num [year_step, cover_need, retire_phase, rmd_step,
    strat_step, cover_eps, special_at, under_limit, conv_gross, decide_conversion,
    Plan.pre_rate, Plan.taxable_rate, Plan.ss_annual, Plan.ss_claim_age, rmd_start_age,
    planC7]

lemma planC7_step75_10 (z : ℕ → ℚ) :
    year_step (planC7 10) z 2 75 ⟨90, 0, 200, 200, 85, 100, 0, 3⟩ =
      (⟨0, 80, -160, 200, 75, 100, 0, 6⟩,
       ⟨75, 0, 10, 20, 360, 90, 360, 0, 80, -160, 75, -5⟩) := by
  norm_num [year_step, cover_need, retire_phase, rmd_step,
    strat_step, cover_eps, special_at, under_limit, conv_gross, decide_conversion,
    Plan.pre_rate, Plan.taxable_rate, Plan.ss_annual, Plan.ss_claim_age, rmd_start_age,
    planC7]

lemma planC7_path10 :
    simulate_path (planC7 10) (fun _ => 0) 2 0 =
      ([⟨74, 100, 10, 0, 0, 0, 0, 90, 0, 200, 85, 375⟩,
        ⟨75, 0, 10, 20, 360, 90, 360, 0, 80, -160, 75, -5⟩],
       ⟨0, 80, -160, 200, 75, 100, 0, 6⟩) := by
  have hinit : (⟨(planC7 10).pre_tax.balance, (planC7 10).roth.balance,
      (planC7 10).taxable.balance,
      (planC7 10).taxable.basis.getD (planC7 10).taxable.balance,
      (planC7 10).cash.balance, (planC7 10).salary,
      (planC7 10).roth.annual_limit.getD (planC7 10).roth.contribution, 0⟩ : PathState) =
      ⟨0, 0, 200, 200, 85, 100, 0, 0⟩ := rfl
  simp only [simulate_path, planC7_ages10, List.foldl_cons, List.foldl_nil, hinit,
    planC7_step74_10 (fun _ => 0), List.nil_append]
  simp only [planC7_step75_10 (fun _ => 0), List.singleton_append]

/-- C7 (counterexample): success probability is not monotone in the baseline
expense level.  On `planC7` (a Roth-conversion plan whose conversion tax,
paid from the taxable account, is four times the converted amount), a
baseline of 20 yields success probability 1 while the strictly smaller
baseline 10 — with every other plan field, path count and stream held
fixed — yields success probability 0. -/
theorem C7_counterexample :
    ((simulate (planC7 20) 1 (fun _ => 0) 2).map
        (fun r => r.success_probability) = some 1) ∧
    ((simulate (planC7 10) 1 (fun _ => 0) 2).map
        (fun r => r.success_probability) = some 0) ∧
    ((10:ℚ) ≤ 20) ∧ planC7 10 = { planC7 20 with baseline := 10 } := by
  refine ⟨?_, ?_, by norm_num, rfl⟩
  · have hp : run_paths (planC7 20) (fun _ => 0) 2 1 0 =
        [[⟨74, 100, 20, 0, 0, 0, 0, 80, 0, 200, 85, 365⟩,
          ⟨75, 0, 20, 40, 320, 80, 320, 0, 60, -120, 65, 5⟩]] := by
      simp only [run_paths, planC7_path20]
    rw [simulate, if_neg (by norm_num), if_neg (by rw [planC7_ages]; norm_num),
      if_neg (by norm_num [planC7])]
    simp only [hp, Option.map_some', List.map_cons, List.map_nil]
    norm_num
  · have hp : run_paths (planC7 10) (fun _ => 0) 2 1 0 =
        [[⟨74, 100, 10, 0, 0, 0, 0, 90, 0, 200, 85, 375⟩,
          ⟨75, 0, 10, 20, 360, 90, 360, 0, 80, -160, 75, -5⟩]] := by
      simp only [run_paths, planC7_path10]
    rw [simulate, if_neg (by norm_num), if_neg (by rw [planC7_ages10]; norm_num),
      if_neg (by norm_num [planC7])]
    simp only [hp, Option.map_some', List.map_cons, List.map_nil]
    norm_num

/-- All five monetary fields of a mid-year state are non-negative. -/
def MidNonneg (m : MidState) : Prop :=
  0 ≤ m.pre ∧ 0 ≤ m.roth ∧ 0 ≤ m.taxable ∧ 0 ≤ m.basis ∧ 0 ≤ m.cash

lemma le_div_mul_le (g b c : ℚ) (hc : 0 < c) (h : g ≤ b / c) : g * c ≤ b := by
  have h2 := mul_le_mul_of_nonneg_right h hc.le
  rwa [div_mul_cancel₀ b (ne_of_gt hc)] at h2

lemma rmd_step_nonneg (rate : ℚ) (rmd_start age : ℤ) (prior need : ℚ) (s : MidState)
    (hn : 0 ≤ need) (hm : MidNonneg s) :
    MidNonneg (rmd_step rate rmd_start age prior need s).1 ∧
      0 ≤ (rmd_step rate rmd_start age prior need s).2.1 := by
  obtain ⟨h1, h2, h3, h4, h5⟩ := hm
  by_cases hc : rmd_start ≤ age ∧ 0 < s.pre
  · have hg : min (compute_rmd prior age) s.pre ≤ s.pre := min_le_right _ _
    by_cases hnet : need ≤ min (compute_rmd prior age) s.pre * (1 - rate)
    · simp only [rmd_step, if_pos hc, if_pos hnet]
      exact ⟨⟨by simp only []; linarith, h2, h3, h4, by simp only []; linarith⟩, le_rfl⟩
    · simp only [rmd_step, if_pos hc, if_neg hnet]
      refine ⟨⟨by simp only []; linarith, h2, h3, h4, h5⟩, ?_⟩
      have := not_le.mp hnet
      linarith
  · simp only [rmd_step, if_neg hc]
    exact ⟨⟨h1, h2, h3, h4, h5⟩, hn⟩

lemma strat_step_nonneg (strat : Strategy) (rate rate_t blimit rmd_gross need : ℚ)
    (s : MidState) (hr : rate < 1) (hrt : rate_t < 1) (hn : 0 ≤ need)
    (hm : MidNonneg s) :
    MidNonneg (strat_step strat rate rate_t blimit rmd_gross need s).1 ∧
      0 ≤ (strat_step strat rate rate_t blimit rmd_gross need s).2 := by
  obtain ⟨h1, h2, h3, h4, h5⟩ := hm
  have h1r : (0:ℚ) < 1 - rate := by linarith
  have h1rt : (0:ℚ) < 1 - rate_t := by linarith
  cases strat with
  | standard =>
    simp only [strat_step, if_pos hr, if_pos hrt]
    have hg0 : 0 ≤ min s.taxable (need / (1 - rate_t)) :=
      le_min h3 (div_nonneg hn h1rt.le)
    have hgle : min s.taxable (need / (1 - rate_t)) ≤ s.taxable := min_le_left _ _
    have hgn : min s.taxable (need / (1 - rate_t)) * (1 - rate_t) ≤ need :=
      le_div_mul_le _ need _ h1rt (min_le_right _ _)
    by_cases hn1 : 0 < need - min s.taxable (need / (1 - rate_t)) * (1 - rate_t)
    · rw [if_pos hn1]
      have hg20 : 0 ≤ min s.pre
          ((need - min s.taxable (need / (1 - rate_t)) * (1 - rate_t)) / (1 - rate)) :=
        le_min h1 (div_nonneg hn1.le h1r.le)
      have hg2le : min s.pre
          ((need - min s.taxable (need / (1 - rate_t)) * (1 - rate_t)) / (1 - rate)) ≤
          s.pre := min_le_left _ _
      have hg2n : min s.pre
          ((need - min s.taxable (need / (1 - rate_t)) * (1 - rate_t)) / (1 - rate)) *
            (1 - rate) ≤
          need - min s.taxable (need / (1 - rate_t)) * (1 - rate_t) :=
        le_div_mul_le _ _ _ h1r (min_le_right _ _)
      refine ⟨⟨by simp only []; linarith, h2, by simp only []; linarith, h4, h5⟩, ?_⟩
      simp only []
      linarith
    · rw [if_neg hn1]
      exact ⟨⟨h1, h2, by simp only []; linarith, h4, h5⟩, by simp only []; linarith⟩
  | proportional =>
    simp only [strat_step, if_pos hr, if_pos hrt]
    by_cases htn : 0 < s.taxable * (1 - rate_t) + s.pre * (1 - rate)
    · rw [if_pos htn]
      have hT : 0 ≤ s.taxable * (1 - rate_t) := by nlinarith
      have hP : 0 ≤ s.pre * (1 - rate) := by nlinarith
      have hfrac0 : 0 ≤ s.taxable * (1 - rate_t) /
          (s.taxable * (1 - rate_t) + s.pre * (1 - rate)) := div_nonneg hT htn.le
      have hfrac1 : s.taxable * (1 - rate_t) /
          (s.taxable * (1 - rate_t) + s.pre * (1 - rate)) ≤ 1 := by
        rw [div_le_one htn]; linarith
      have hdtn0 : 0 ≤ need * (s.taxable * (1 - rate_t) /
          (s.taxable * (1 - rate_t) + s.pre * (1 - rate))) := mul_nonneg hn hfrac0
      have hdtn_le : need * (s.taxable * (1 - rate_t) /
          (s.taxable * (1 - rate_t) + s.pre * (1 - rate))) ≤ need := by nlinarith
      have hgt0 : 0 ≤ min s.taxable (need * (s.taxable * (1 - rate_t) /
          (s.taxable * (1 - rate_t) + s.pre * (1 - rate))) / (1 - rate_t)) :=
        le_min h3 (div_nonneg hdtn0 h1rt.le)
      have hgt_le : min s.taxable (need * (s.taxable * (1 - rate_t) /
          (s.taxable * (1 - rate_t) + s.pre * (1 - rate))) / (1 - rate_t)) ≤
          s.taxable := min_le_left _ _
      have hnt_le : min s.taxable (need * (s.taxable * (1 - rate_t) /
          (s.taxable * (1 - rate_t) + s.pre * (1 - rate))) / (1 - rate_t)) *
            (1 - rate_t) ≤
          need * (s.taxable * (1 - rate_t) /
            (s.taxable * (1 - rate_t) + s.pre * (1 - rate))) :=
        le_div_mul_le _ _ _ h1rt (min_le_right _ _)
      have hneed1 : 0 ≤ need - min s.taxable (need * (s.taxable * (1 - rate_t) /
          (s.taxable * (1 - rate_t) + s.pre * (1 - rate))) / (1 - rate_t)) *
            (1 - rate_t) := by linarith
      have hnp0 : 0 ≤ min (s.pre * (1 - rate)) (need - min s.taxable
          (need * (s.taxable * (1 - rate_t) /
            (s.taxable * (1 - rate_t) + s.pre * (1 - rate))) / (1 - rate_t)) *
            (1 - rate_t)) := le_min hP hneed1
      have hnp_leP : min (s.pre * (1 - rate)) (need - min s.taxable
          (need * (s.taxable * (1 - rate_t) /
            (s.taxable * (1 - rate_t) + s.pre * (1 - rate))) / (1 - rate_t)) *
            (1 - rate_t)) ≤ s.pre * (1 - rate) := min_le_left _ _
      have hnp_leN : min (s.pre * (1 - rate)) (need - min s.taxable
          (need * (s.taxable * (1 - rate_t) /
            (s.taxable * (1 - rate_t) + s.pre * (1 - rate))) / (1 - rate_t)) *
            (1 - rate_t)) ≤
          need - min s.taxable (need * (s.taxable * (1 - rate_t) /
            (s.taxable * (1 - rate_t) + s.pre * (1 - rate))) / (1 - rate_t)) *
            (1 - rate_t) := min_le_right _ _
      have hgp_le : min (s.pre * (1 - rate)) (need - min s.taxable
          (need * (s.taxable * (1 - rate_t) /
            (s.taxable * (1 - rate_t) + s.pre * (1 - rate))) / (1 - rate_t)) *
            (1 - rate_t)) / (1 - rate) ≤ s.pre := by
        rw [div_le_iff₀ h1r]; linarith
      have hgp0 : 0 ≤ min (s.pre * (1 - rate)) (need - min s.taxable
          (need * (s.taxable * (1 - rate_t) /
            (s.taxable * (1 - rate_t) + s.pre * (1 - rate))) / (1 - rate_t)) *
            (1 - rate_t)) / (1 - rate) := div_nonneg hnp0 h1r.le
      have hgpn : min (s.pre * (1 - rate)) (need - min s.taxable
          (need * (s.taxable * (1 - rate_t) /
            (s.taxable * (1 - rate_t) + s.pre * (1 - rate))) / (1 - rate_t)) *
            (1 - rate_t)) / (1 - rate) * (1 - rate) ≤
          need - min s.taxable (need * (s.taxable * (1 - rate_t) /
            (s.taxable * (1 - rate_t) + s.pre * (1 - rate))) / (1 - rate_t)) *
            (1 - rate_t) := by
        rw [div_mul_cancel₀ _ (ne_of_gt h1r)]
        exact hnp_leN
      refine ⟨⟨by simp only []; linarith, h2, by simp only []; linarith, h4, h5⟩, ?_⟩
      simp only []
      linarith
    · rw [if_neg htn]
      exact ⟨⟨h1, h2, h3, h4, h5⟩, hn⟩
  | tax_bracket =>
    simp only [strat_step, if_pos hr, if_pos hrt]
    by_cases hb : 0 < max 0 (blimit - rmd_gross) ∧ 0 < need
    · rw [if_pos hb]
      have hg0 : 0 ≤ min s.pre (min (max 0 (blimit - rmd_gross)) (need / (1 - rate))) :=
        le_min h1 (le_min hb.1.le (div_nonneg hn h1r.le))
      have hgle : min s.pre (min (max 0 (blimit - rmd_gross)) (need / (1 - rate))) ≤
          s.pre := min_le_left _ _
      have hgn : min s.pre (min (max 0 (blimit - rmd_gross)) (need / (1 - rate))) *
            (1 - rate) ≤ need :=
        le_div_mul_le _ need _ h1r
          (le_trans (min_le_right _ _) (min_le_right _ _))
      by_cases hn2 : 0 < need -
          min s.pre (min (max 0 (blimit - rmd_gross)) (need / (1 - rate))) * (1 - rate)
      · rw [if_pos hn2]
        have hg20 : 0 ≤ min s.taxable ((need -
            min s.pre (min (max 0 (blimit - rmd_gross)) (need / (1 - rate))) * (1 - rate)) /
              (1 - rate_t)) :=
          le_min h3 (div_nonneg hn2.le h1rt.le)
        have hg2le : min s.taxable ((need -
            min s.pre (min (max 0 (blimit - rmd_gross)) (need / (1 - rate))) * (1 - rate)) /
              (1 - rate_t)) ≤ s.taxable := min_le_left _ _
        have hg2n : min s.taxable ((need -
            min s.pre (min (max 0 (blimit - rmd_gross)) (need / (1 - rate))) * (1 - rate)) /
              (1 - rate_t)) * (1 - rate_t) ≤
            need -
              min s.pre (min (max 0 (blimit - rmd_gross)) (need / (1 - rate))) *
                (1 - rate) :=
          le_div_mul_le _ _ _ h1rt (min_le_right _ _)
        refine ⟨⟨by simp only []; linarith, h2, by simp only []; linarith, h4, h5⟩, ?_⟩
        simp only []
        linarith
      · rw [if_neg hn2]
        exact ⟨⟨by simp only []; linarith, h2, h3, h4, h5⟩, by simp only []; linarith⟩
    · rw [if_neg hb]
      by_cases hn2 : 0 < need
      · rw [if_pos hn2]
        have hg20 : 0 ≤ min s.taxable (need / (1 - rate_t)) :=
          le_min h3 (div_nonneg hn h1rt.le)
        have hg2le : min s.taxable (need / (1 - rate_t)) ≤ s.taxable := min_le_left _ _
        have hg2n : min s.taxable (need / (1 - rate_t)) * (1 - rate_t) ≤ need :=
          le_div_mul_le _ need _ h1rt (min_le_right _ _)
        exact ⟨⟨h1, h2, by simp only []; linarith, h4, h5⟩, by simp only []; linarith⟩
      · rw [if_neg hn2]
        exact ⟨⟨h1, h2, h3, h4, h5⟩, hn⟩

lemma retire_phase_nonneg (strat : Strategy) (rate rate_t blimit : ℚ)
    (rmd_start age : ℤ) (prior expenses : ℚ) (s : MidState)
    (hr : rate < 1) (hrt : rate_t < 1) (hm : MidNonneg s) :
    MidNonneg (retire_phase strat rate rate_t blimit rmd_start age prior expenses s) := by
  have key :=
    rmd_step_nonneg rate rmd_start age prior (max 0 expenses) s (le_max_left 0 expenses) hm
  unfold retire_phase
  revert key
  generalize rmd_step rate rmd_start age prior (max 0 expenses) s = R
  intro key
  obtain ⟨hm1, hn1⟩ := key
  by_cases hq1 : 0 < R.2.1
  · rw [if_pos hq1]
    have key2 := strat_step_nonneg strat rate rate_t blimit R.2.2 R.2.1 R.1 hr hrt hq1.le hm1
    revert key2
    generalize strat_step strat rate rate_t blimit R.2.2 R.2.1 R.1 = S
    intro key2
    obtain ⟨⟨g1, g2, g3, g4, g5⟩, gn⟩ := key2
    simp only []
    by_cases hq2 : 0 < S.2
    · rw [if_pos hq2]
      have hro := min_le_left S.1.roth S.2
      have hron := min_le_right S.1.roth S.2
      by_cases hq3 : 0 < S.2 - min S.1.roth S.2
      · rw [if_pos hq3]
        have hcle := min_le_left S.1.cash (S.2 - min S.1.roth S.2)
        exact ⟨g1, by simp only []; linarith, g3, g4, by simp only []; linarith⟩
      · rw [if_neg hq3]
        exact ⟨g1, by simp only []; linarith, g3, g4, g5⟩
    · rw [if_neg hq2, if_neg hq2]
      exact ⟨g1, g2, g3, g4, g5⟩
  · rw [if_neg hq1]
    exact hm1

/-- Per-path loop state with all balances, the basis and the running Roth
limit non-negative. -/
def StateNonneg (s : PathState) : Prop :=
  0 ≤ s.pre ∧ 0 ≤ s.roth ∧ 0 ≤ s.taxable ∧ 0 ≤ s.basis ∧ 0 ≤ s.cash ∧ 0 ≤ s.roth_limit

/-- Plan fields under which no unclamped debit exists in a simulated year:
no Roth conversion, no state tax, withdrawal tax rates below 100 %, and
non-negative contribution amounts and Roth-limit growth factor. -/
def BenignFields (p : Plan) : Prop :=
  p.roth_conversion = none ∧ p.state_tax = none ∧
  p.pre_rate < 1 ∧ p.taxable_rate < 1 ∧
  0 ≤ p.pre_tax.contribution ∧ 0 ≤ p.roth.contribution ∧
  0 ≤ p.taxable.contribution ∧ 0 ≤ 1 + p.roth.limit_growth

/-- Benign plan: benign fields plus non-negative starting balances, basis
and Roth annual limit. -/
def BenignPlan (p : Plan) : Prop :=
  BenignFields p ∧
  0 ≤ p.pre_tax.balance ∧ 0 ≤ p.roth.balance ∧ 0 ≤ p.taxable.balance ∧
  0 ≤ p.cash.balance ∧ 0 ≤ p.taxable.basis.getD p.taxable.balance ∧
  0 ≤ p.roth.annual_limit.getD p.roth.contribution

/-- The random stream never produces a return factor below zero for any of
the three invested accounts, in either correlation mode. -/
def FactorsNonneg (p : Plan) (z : ℕ → ℚ) : Prop :=
  ∀ k : ℕ,
    0 ≤ 1 + (p.pre_tax.mean_return.getD (5/100) +
      p.pre_tax.stdev_return.getD (10/100) * z k) ∧
    0 ≤ 1 + (p.roth.mean_return.getD (6/100) +
      p.roth.stdev_return.getD (12/100) * z k) ∧
    0 ≤ 1 + (p.taxable.mean_return.getD (6/100) +
      p.taxable.stdev_return.getD (12/100) * z k) ∧
    0 ≤ 1 + (p.roth.mean_return.getD (6/100) +
      p.roth.stdev_return.getD (12/100) * z k) +
      (p.pre_tax.mean_return.getD (5/100) - p.roth.mean_return.getD (6/100)) ∧
    0 ≤ 1 + (p.roth.mean_return.getD (6/100) +
      p.roth.stdev_return.getD (12/100) * z k) +
      (p.taxable.mean_return.getD (6/100) - p.roth.mean_return.getD (6/100))

lemma year_core_nonneg {strat : Strategy} {rate rate_t blimit : ℚ}
    {rmd_start age : ℤ} {cond : Prop} [Decidable cond]
    {prior ye av cp cr ct f1 f2 f3 sal rl : ℚ} {fuel k : ℕ} {m0 : MidState}
    (hm : MidNonneg m0) (hr : rate < 1) (hrt : rate_t < 1)
    (hcp : 0 ≤ cp) (hcr : 0 ≤ cr) (hct : 0 ≤ ct)
    (hf1 : 0 ≤ f1) (hf2 : 0 ≤ f2) (hf3 : 0 ≤ f3) (hrl : 0 ≤ rl) :
    (let C : MidState :=
      if 0 < av then
        { (if av < 0 then (cover_need rate fuel ⟨-av, m0, 0⟩).1 else ⟨0, m0, 0⟩).m with
          cash :=
            (if av < 0 then (cover_need rate fuel ⟨-av, m0, 0⟩).1 else ⟨0, m0, 0⟩).m.cash +
              av }
      else (if av < 0 then (cover_need rate fuel ⟨-av, m0, 0⟩).1 else ⟨0, m0, 0⟩).m;
    let M3 : MidState :=
      ⟨C.pre * f1 + cp, C.roth * f2 + cr, C.taxable * f3 + ct, C.basis + ct, C.cash,
       C.wdr, C.wtax⟩;
    let X : MidState :=
      if cond then retire_phase strat rate rate_t blimit rmd_start age prior ye M3 else M3;
    StateNonneg ⟨X.pre, X.roth, X.taxable, X.basis, X.cash, sal, rl, k⟩ ∧
      0 ≤ X.pre + X.roth + X.taxable + X.cash) := by
  simp only []
  obtain ⟨q1, q2, q3, q4, q5⟩ := hm
  have hC : MidNonneg (if 0 < av then
      { (if av < 0 then (cover_need rate fuel ⟨-av, m0, 0⟩).1 else ⟨0, m0, 0⟩).m with
        cash :=
          (if av < 0 then (cover_need rate fuel ⟨-av, m0, 0⟩).1 else ⟨0, m0, 0⟩).m.cash +
            av }
      else (if av < 0 then (cover_need rate fuel ⟨-av, m0, 0⟩).1 else ⟨0, m0, 0⟩).m) := by
    by_cases h1 : av < 0
    · have hnot : ¬ 0 < av := by linarith
      rw [if_neg hnot, if_pos h1]
      have hcov := cover_need_nonneg rate fuel ⟨-av, m0, 0⟩ (by simp only []; linarith)
        q5 q3 q4 q1 q2
      exact ⟨hcov.2.2.2.2.1, hcov.2.2.2.2.2, hcov.2.2.1, hcov.2.2.2.1, hcov.2.1⟩
    · rw [if_neg h1]
      by_cases h2 : 0 < av
      · rw [if_pos h2]
        exact ⟨q1, q2, q3, q4, by simp only []; linarith⟩
      · rw [if_neg h2]
        exact ⟨q1, q2, q3, q4, q5⟩
  revert hC
  generalize (if 0 < av then
      { (if av < 0 then (cover_need rate fuel ⟨-av, m0, 0⟩).1 else ⟨0, m0, 0⟩).m with
        cash :=
          (if av < 0 then (cover_need rate fuel ⟨-av, m0, 0⟩).1 else ⟨0, m0, 0⟩).m.cash +
            av }
      else (if av < 0 then (cover_need rate fuel ⟨-av, m0, 0⟩).1 else ⟨0, m0, 0⟩).m) = C
  intro hC
  have hM3 : MidNonneg ⟨C.pre * f1 + cp, C.roth * f2 + cr, C.taxable * f3 + ct,
      C.basis + ct, C.cash, C.wdr, C.wtax⟩ :=
    ⟨add_nonneg (mul_nonneg hC.1 hf1) hcp, add_nonneg (mul_nonneg hC.2.1 hf2) hcr,
     add_nonneg (mul_nonneg hC.2.2.1 hf3) hct, add_nonneg hC.2.2.2.1 hct, hC.2.2.2.2⟩
  have hX : MidNonneg (if cond then
      retire_phase strat rate rate_t blimit rmd_start age prior ye
        ⟨C.pre * f1 + cp, C.roth * f2 + cr, C.taxable * f3 + ct, C.basis + ct, C.cash,
         C.wdr, C.wtax⟩
      else ⟨C.pre * f1 + cp, C.roth * f2 + cr, C.taxable * f3 + ct, C.basis + ct, C.cash,
         C.wdr, C.wtax⟩) := by
    split_ifs with h
    · exact retire_phase_nonneg strat rate rate_t blimit rmd_start age prior ye _ hr hrt hM3
    · exact hM3
  revert hX
  generalize (if cond then
      retire_phase strat rate rate_t blimit rmd_start age prior ye
        ⟨C.pre * f1 + cp, C.roth * f2 + cr, C.taxable * f3 + ct, C.basis + ct, C.cash,
         C.wdr, C.wtax⟩
      else ⟨C.pre * f1 + cp, C.roth * f2 + cr, C.taxable * f3 + ct, C.basis + ct, C.cash,
         C.wdr, C.wtax⟩) = X
  intro hX
  obtain ⟨x1, x2, x3, x4, x5⟩ := hX
  exact ⟨⟨x1, x2, x3, x4, x5, hrl⟩, by linarith⟩

set_option maxHeartbeats 8000000 in
lemma year_step_nonneg (p : Plan) (z : ℕ → ℚ) (fuel : ℕ) (age : ℤ) (s : PathState)
    (hb : BenignFields p) (hz : FactorsNonneg p z) (hs : StateNonneg s) :
    StateNonneg (year_step p z fuel age s).1 ∧
      0 ≤ (year_step p z fuel age s).2.net_worth := by
  obtain ⟨hrc, hst, hr, hrt, hcp, hcr, hct, hg⟩ := hb
  obtain ⟨hs1, hs2, hs3, hs4, hs5, hs6⟩ := hs
  have hm0 : MidNonneg ⟨s.pre, s.roth, s.taxable, s.basis, s.cash, 0, 0⟩ :=
    ⟨hs1, hs2, hs3, hs4, hs5⟩
  by_cases hpend : age < p.retire_age ∧ 0 <
      (if age < p.retire_age then s.salary else 0) +
        (if p.ss_claim_age ≤ age then p.ss_annual else 0) -
        (p.baseline + special_at p.special age)
  · cases hmo : p.roth.max_out <;>
      cases hul : under_limit
        ((if age < p.retire_age then s.salary else 0) +
          (if p.ss_claim_age ≤ age then p.ss_annual else 0)) p.roth_income_limit <;>
      cases hcorr : p.returns_correlated <;>
      · simp only [year_step, hrc, hst, hmo, hul, hcorr, if_pos hpend, conv_gross,
          decide_conversion, max0_min0, lt_self_iff_false, if_false, if_true,
          Bool.false_eq_true]
        refine year_core_nonneg hm0 hr hrt ?_ ?_ ?_ ?_ ?_ ?_ ?_
        · exact le_min hpend.2.le hcp
        · first
          | exact le_rfl
          | exact le_min (sub_nonneg.mpr (min_le_left _ _)) hs6
          | exact le_min (sub_nonneg.mpr (min_le_left _ _)) hcr
        · exact le_min (sub_nonneg.mpr (min_le_left _ _)) hct
        · first
          | exact (hz s.k).1
          | exact (hz s.k).2.2.2.1
        · first
          | exact (hz (s.k + 1)).2.1
          | (have h2 := (hz s.k).2.1
             linarith)
        · first
          | exact (hz (s.k + 2)).2.2.1
          | exact (hz s.k).2.2.2.2
        · first
          | exact mul_nonneg hs6 hg
          | exact hs6
  · cases hmo : p.roth.max_out <;>
      cases hcorr : p.returns_correlated <;>
      · simp only [year_step, hrc, hst, hmo, hcorr, if_neg hpend, conv_gross,
          decide_conversion, max0_min0, lt_self_iff_false, if_false, if_true,
          Bool.false_eq_true]
        refine year_core_nonneg hm0 hr hrt le_rfl le_rfl le_rfl ?_ ?_ ?_ ?_
        · first
          | exact (hz s.k).1
          | exact (hz s.k).2.2.2.1
        · first
          | exact (hz (s.k + 1)).2.1
          | (have h2 := (hz s.k).2.1
             linarith)
        · first
          | exact (hz (s.k + 2)).2.2.1
          | exact (hz s.k).2.2.2.2
        · first
          | exact mul_nonneg hs6 hg
          | exact hs6

lemma getLastD_nonneg : ∀ (l : List ℚ) (d : ℚ), 0 ≤ d → (∀ x ∈ l, 0 ≤ x) →
    0 ≤ l.getLastD d
  | [], _, hd, _ => hd
  | a :: l, _, _, h => by
    rw [List.getLastD_cons]
    exact getLastD_nonneg l a (h a (List.mem_cons_self a l))
      (fun x hx => h x (List.mem_cons_of_mem a hx))

set_option maxHeartbeats 2000000 in
lemma fold_rows_nonneg (p : Plan) (z : ℕ → ℚ) (fuel : ℕ)
    (hb : BenignFields p) (hz : FactorsNonneg p z) :
    ∀ (ages : List ℤ) (acc : List LedgerRow) (st : PathState),
      StateNonneg st → (∀ r ∈ acc, 0 ≤ r.net_worth) →
      (∀ r ∈ (ages.foldl
          (fun acc age =>
            let r := year_step p z fuel age acc.2
            (acc.1 ++ [r.2], r.1)) (acc, st)).1, 0 ≤ r.net_worth) ∧
        StateNonneg (ages.foldl
          (fun acc age =>
            let r := year_step p z fuel age acc.2
            (acc.1 ++ [r.2], r.1)) (acc, st)).2 := by
  intro ages
  induction ages with
  | nil =>
    intro acc st hst hacc
    exact ⟨hacc, hst⟩
  | cons a ages ih =>
    intro acc st hst hacc
    rw [List.foldl_cons]
    have hy := year_step_nonneg p z fuel a st hb hz hst
    refine ih _ _ hy.1 ?_
    intro r hr
    rcases List.mem_append.mp hr with h | h
    · exact hacc r h
    · rw [List.mem_singleton.mp h]
      exact hy.2

lemma simulate_path_rows_nonneg (p : Plan) (z : ℕ → ℚ) (fuel k0 : ℕ)
    (hb : BenignPlan p) (hz : FactorsNonneg p z) :
    ∀ r ∈ (simulate_path p z fuel k0).1, 0 ≤ r.net_worth := by
  obtain ⟨hf, h1, h2, h3, h4, h5, h6⟩ := hb
  have hinit : StateNonneg ⟨p.pre_tax.balance, p.roth.balance, p.taxable.balance,
      p.taxable.basis.getD p.taxable.balance, p.cash.balance, p.salary,
      p.roth.annual_limit.getD p.roth.contribution, k0⟩ := ⟨h1, h2, h3, h5, h4, h6⟩
  simp only [simulate_path]
  exact (fold_rows_nonneg p z fuel hf hz (ages_list p) [] _ hinit
    (fun r hr => absurd hr (List.not_mem_nil r))).1

lemma run_paths_rows_nonneg (p : Plan) (z : ℕ → ℚ) (fuel : ℕ)
    (hb : BenignPlan p) (hz : FactorsNonneg p z) :
    ∀ (n k : ℕ), ∀ rows ∈ run_paths p z fuel n k, ∀ r ∈ rows, 0 ≤ r.net_worth
  | 0, k => by
    intro rows hrows
    exact absurd hrows (List.not_mem_nil rows)
  | (n+1), k => by
    intro rows hrows
    rw [run_paths] at hrows
    rcases List.mem_cons.mp hrows with h | h
    · intro r hr
      rw [h] at hr
      exact simulate_path_rows_nonneg p z fuel k hb hz r hr
    · exact run_paths_rows_nonneg p z fuel hb hz n _ rows h

lemma run_paths_length (p : Plan) (z : ℕ → ℚ) (fuel : ℕ) :
    ∀ (n k : ℕ), (run_paths p z fuel n k).length = n
  | 0, _ => rfl
  | (n+1), k => by
    rw [run_paths]
    simp only [List.length_cons, run_paths_length p z fuel n]

lemma success_eq_one (p : Plan) (n : ℕ) (z : ℕ → ℚ) (fuel : ℕ)
    (hn : n ≠ 0) (hages : (ages_list p).isEmpty = false)
    (hb : BenignPlan p) (hz : FactorsNonneg p z) :
    (simulate p n z fuel).map (fun r => r.success_probability) = some 1 := by
  rw [simulate, if_neg hn, if_neg (by rw [hages]; exact Bool.false_ne_true),
    if_neg (by rw [hb.1.2.1]; exact Bool.false_ne_true)]
  simp only [Option.map_some', Option.some.injEq]
  have hall : ∀ t ∈ ((run_paths p z fuel n 0).map
      (fun rows => rows.map (fun r => r.net_worth))).map (fun l => l.getLastD 0),
      0 ≤ t := by
    intro t ht
    rcases List.mem_map.mp ht with ⟨l, hl, rfl⟩
    rcases List.mem_map.mp hl with ⟨rows, hrows, rfl⟩
    refine getLastD_nonneg _ 0 le_rfl ?_
    intro x hx
    rcases List.mem_map.mp hx with ⟨r, hr, rfl⟩
    exact run_paths_rows_nonneg p z fuel hb hz n 0 rows hrows r hr
  have hc := List.countP_eq_length.mpr (fun a ha => decide_eq_true (hall a ha))
  rw [hc]
  simp only [List.length_map, run_paths_length]
  exact div_self (by exact_mod_cast hn)

/-- C7 (amended): lowering the baseline expense never lowers the success
probability for benign plans — no Roth conversion, no state tax,
withdrawal tax rates below 100 %, non-negative contributions, balances and
Roth limit — whose return factors stay non-negative along the stream: every
deficit draw is clamped, so all balances stay non-negative on every path,
terminal net worth is non-negative, and the success probability equals 1 at
every baseline.  (Without these restrictions the claim is false, see the
counterexample.) -/
theorem C7_amended (p : Plan) (b1 b2 : ℚ) (n : ℕ) (z : ℕ → ℚ) (fuel : ℕ)
    (hb12 : b1 ≤ b2) (hb : BenignPlan p) (hz : FactorsNonneg p z) :
    ((simulate { p with baseline := b2 } n z fuel).map
        (fun r => r.success_probability)).getD 0 ≤
      ((simulate { p with baseline := b1 } n z fuel).map
        (fun r => r.success_probability)).getD 0 := by
  by_cases hn : n = 0
  · subst hn
    have e : ∀ b : ℚ, simulate { p with baseline := b } 0 z fuel = none := fun b => by
      rw [simulate, if_pos rfl]
    rw [e b1, e b2]
  by_cases hages : (ages_list p).isEmpty
  · have e : ∀ b : ℚ, simulate { p with baseline := b } n z fuel = none := fun b => by
      have hA : (ages_list { p with baseline := b }).isEmpty = true := hages
      rw [simulate, if_neg hn, if_pos hA]
    rw [e b1, e b2]
  · have hA : (ages_list p).isEmpty = false := Bool.eq_false_iff.mpr hages
    have h1 := success_eq_one { p with baseline := b1 } n z fuel hn hA hb hz
    have h2 := success_eq_one { p with baseline := b2 } n z fuel hn hA hb hz
    rw [h1, h2]

/-- C7 (witness): the amended monotonicity theorem applied to the C1
scenario plan at baselines 40000 ≤ 50000. -/
theorem C7_amended_witness :
    ((40000:ℚ) ≤ 50000) ∧
    (((simulate { planC1 with baseline := 50000 } 1 (fun _ => 0) 2).map
        (fun r => r.success_probability)).getD 0 ≤
      ((simulate { planC1 with baseline := 40000 } 1 (fun _ => 0) 2).map
        (fun r => r.success_probability)).getD 0) :=
  ⟨by norm_num,
   C7_amended planC1 40000 50000 1 (fun _ => 0) 2 (by norm_num)
     (by
       refine ⟨⟨rfl, rfl, ?_, ?_, ?_, ?_, ?_, ?_⟩, ?_, ?_, ?_, ?_, ?_, ?_⟩ <;>
         norm_num [planC1, Plan.pre_rate, Plan.taxable_rate])
     (fun k => by
       refine ⟨?_, ?_, ?_, ?_, ?_⟩ <;> norm_num [planC1])⟩

lemma cap_gains_nonpos (g : ℚ) (hg : g ≤ 0) : compute_capital_gains_tax g = 0 := by
  rw [compute_capital_gains_tax, if_pos hg]

lemma cover_eps_pos : (0:ℚ) < cover_eps := by norm_num [cover_eps]

lemma exists_eps_pow (x : ℚ) : ∃ k : ℕ, x ≤ cover_eps * 5 ^ k := by
  obtain ⟨k, hk⟩ := pow_unbounded_of_one_lt (x / cover_eps) (by norm_num : (1:ℚ) < 5)
  refine ⟨k, ?_⟩
  rw [div_lt_iff₀ cover_eps_pos] at hk
  nlinarith [hk]

/-- The termination predicate: some amount of fuel makes the embedded
`_cover_need` loop exit the way the Python loop does. -/
def CoverTerm (rate : ℚ) (s : CoverState) : Prop :=
  ∃ fuel : ℕ, (cover_need rate fuel s).2 = true

lemma cover_need_exit (rate : ℚ) :
    ∀ (fuel : ℕ) (s : CoverState), (cover_need rate fuel s).2 = true →
      (cover_need rate fuel s).1.need ≤ cover_eps ∨
      ((cover_need rate fuel s).1.m.cash ≤ 0 ∧ (cover_need rate fuel s).1.m.taxable ≤ 0 ∧
       (cover_need rate fuel s).1.m.pre ≤ 0 ∧ (cover_need rate fuel s).1.m.roth ≤ 0)
  | 0, s => by
    rw [cover_need]
    intro h
    exact absurd h (by norm_num)
  | fuel+1, s => by
    rw [cover_need]
    by_cases h1 : s.need ≤ cover_eps
    · rw [if_pos h1]
      intro _
      exact Or.inl h1
    rw [if_neg h1]
    have hneed : (0:ℚ) < s.need := lt_of_lt_of_le cover_eps_pos (not_le.mp h1).le
    by_cases h2 : 0 < min s.m.cash s.need
    · rw [if_pos h2]
      exact cover_need_exit rate fuel _
    rw [if_neg h2]
    by_cases h3 : 0 < s.m.taxable
    · rw [if_pos h3]
      exact cover_need_exit rate fuel _
    rw [if_neg h3]
    by_cases h4 : 0 < s.m.pre
    · rw [if_pos h4]
      exact cover_need_exit rate fuel _
    rw [if_neg h4]
    by_cases h5 : 0 < s.m.roth
    · rw [if_pos h5]
      exact cover_need_exit rate fuel _
    rw [if_neg h5]
    intro _
    refine Or.inr ⟨?_, not_lt.mp h3, not_lt.mp h4, not_lt.mp h5⟩
    rcases le_or_lt s.m.cash 0 with h | h
    · exact h
    · exact absurd (lt_min h hneed) h2

lemma cover_term_roth (rate : ℚ) (s : CoverState)
    (hcash : s.m.cash ≤ 0) (htax : s.m.taxable ≤ 0) (hpre : s.m.pre ≤ 0) :
    CoverTerm rate s := by
  by_cases h1 : s.need ≤ cover_eps
  · exact ⟨1, by rw [cover_need, if_pos h1]⟩
  have hneed : (0:ℚ) < s.need := lt_of_lt_of_le cover_eps_pos (not_le.mp h1).le
  have h2 : ¬ 0 < min s.m.cash s.need := by
    have := min_le_left s.m.cash s.need
    intro h
    linarith
  have h3 : ¬ 0 < s.m.taxable := not_lt.mpr htax
  have h4 : ¬ 0 < s.m.pre := not_lt.mpr hpre
  by_cases h5 : 0 < s.m.roth
  · refine ⟨2, ?_⟩
    rw [cover_need, if_neg h1, if_neg h2, if_neg h3, if_neg h4, if_pos h5]
    rw [cover_need]
    by_cases h6 : s.need - min s.m.roth s.need ≤ cover_eps
    · rw [if_pos h6]
    · rw [if_neg h6]
      have hmin : min s.m.roth s.need = s.m.roth := by
        rcases le_or_lt s.m.roth s.need with h | h
        · exact min_eq_left h
        · exfalso
          have : s.need - min s.m.roth s.need = 0 := by
            rw [min_eq_right h.le]
            ring
          rw [this] at h6
          exact h6 cover_eps_pos.le
      have hc2 : ¬ 0 < min s.m.cash (s.need - min s.m.roth s.need) := by
        have := min_le_left s.m.cash (s.need - min s.m.roth s.need)
        intro h
        linarith
      rw [if_neg hc2, if_neg h3, if_neg h4]
      rw [if_neg (by rw [hmin]; linarith :
        ¬ (0:ℚ) < s.m.roth - min s.m.roth s.need)]
  · exact ⟨1, by rw [cover_need, if_neg h1, if_neg h2, if_neg h3, if_neg h4, if_neg h5]⟩

lemma cover_term_pre_low (rate : ℚ) (hr : rate < 1) (s : CoverState)
    (hcash : s.m.cash ≤ 0) (htax : s.m.taxable ≤ 0) :
    CoverTerm rate s := by
  by_cases h1 : s.need ≤ cover_eps
  · exact ⟨1, by rw [cover_need, if_pos h1]⟩
  have hneed : (0:ℚ) < s.need := lt_of_lt_of_le cover_eps_pos (not_le.mp h1).le
  have h1r : (0:ℚ) < 1 - rate := by linarith
  have h2 : ¬ 0 < min s.m.cash s.need := by
    have := min_le_left s.m.cash s.need
    intro h
    linarith
  have h3 : ¬ 0 < s.m.taxable := not_lt.mpr htax
  by_cases h4 : 0 < s.m.pre
  · by_cases h6 : s.need / (1 - rate) ≤ s.m.pre
    · refine ⟨2, ?_⟩
      rw [cover_need, if_neg h1, if_neg h2, if_neg h3, if_pos h4]
      rw [if_pos hr, min_eq_right h6]
      rw [cover_need]
      rw [if_pos (by
        simp only []
        rw [div_mul_cancel₀ s.need (ne_of_gt h1r)]
        simp only [sub_self]
        exact cover_eps_pos.le)]
    · have hmin : min s.m.pre (s.need / (1 - rate)) = s.m.pre :=
        min_eq_left (not_le.mp h6).le
      obtain ⟨f, hf⟩ := cover_term_roth rate
        ⟨s.need - s.m.pre * (1 - rate),
         ⟨s.m.pre - s.m.pre, s.m.roth, s.m.taxable, s.m.basis, s.m.cash,
          s.m.wdr + s.m.pre, s.m.wtax + s.m.pre * rate⟩, s.gains⟩
        hcash htax (by simp only []; linarith)
      refine ⟨f + 1, ?_⟩
      rw [cover_need, if_neg h1, if_neg h2, if_neg h3, if_pos h4, if_pos hr, hmin]
      exact hf
  · exact cover_term_roth rate s hcash htax (not_lt.mp h4)

lemma cover_term_pre_high (rate : ℚ) (hr : ¬ rate < 1) :
    ∀ (k : ℕ) (s : CoverState), s.m.cash ≤ 0 → s.m.taxable ≤ 0 →
      s.m.pre ≤ (k : ℚ) * s.need → CoverTerm rate s
  | 0, s, hcash, htax, hk => by
    refine cover_term_roth rate s hcash htax ?_
    simpa using hk
  | (k+1), s, hcash, htax, hk => by
    by_cases h1 : s.need ≤ cover_eps
    · exact ⟨1, by rw [cover_need, if_pos h1]⟩
    have hneed : (0:ℚ) < s.need := lt_of_lt_of_le cover_eps_pos (not_le.mp h1).le
    have h2 : ¬ 0 < min s.m.cash s.need := by
      have := min_le_left s.m.cash s.need
      intro h
      linarith
    have h3 : ¬ 0 < s.m.taxable := not_lt.mpr htax
    by_cases h4 : 0 < s.m.pre
    · by_cases h6 : s.m.pre ≤ s.need
      · have hmin : min s.m.pre s.need = s.m.pre := min_eq_left h6
        obtain ⟨f, hf⟩ := cover_term_roth rate
          ⟨s.need - s.m.pre * (1 - rate),
           ⟨s.m.pre - s.m.pre, s.m.roth, s.m.taxable, s.m.basis, s.m.cash,
            s.m.wdr + s.m.pre, s.m.wtax + s.m.pre * rate⟩, s.gains⟩
          hcash htax (by simp only []; linarith)
        refine ⟨f + 1, ?_⟩
        rw [cover_need, if_neg h1, if_neg h2, if_neg h3, if_pos h4, if_neg hr, hmin]
        exact hf
      · have hmin : min s.m.pre s.need = s.need := min_eq_right (not_le.mp h6).le
        have hrate1 : (1:ℚ) ≤ rate := not_lt.mp hr
        have hstep := cover_term_pre_high rate hr k
          ⟨s.need - s.need * (1 - rate),
           ⟨s.m.pre - s.need, s.m.roth, s.m.taxable, s.m.basis, s.m.cash,
            s.m.wdr + s.need, s.m.wtax + s.need * rate⟩, s.gains⟩
          hcash htax (by
            simp only []
            have hge : s.need ≤ s.need - s.need * (1 - rate) := by nlinarith
            have hk2 : s.m.pre - s.need ≤ (k : ℚ) * s.need := by
              push_cast at hk ⊢
              linarith
            calc s.m.pre - s.need ≤ (k : ℚ) * s.need := hk2
              _ ≤ (k : ℚ) * (s.need - s.need * (1 - rate)) := by
                have : (0:ℚ) ≤ (k : ℚ) := Nat.cast_nonneg k
                nlinarith)
        obtain ⟨f, hf⟩ := hstep
        refine ⟨f + 1, ?_⟩
        rw [cover_need, if_neg h1, if_neg h2, if_neg h3, if_pos h4, if_neg hr, hmin]
        exact hf
    · exact cover_term_roth rate s hcash htax (not_lt.mp h4)

lemma cover_term_pre (rate : ℚ) (s : CoverState)
    (hcash : s.m.cash ≤ 0) (htax : s.m.taxable ≤ 0) : CoverTerm rate s := by
  by_cases hr : rate < 1
  · exact cover_term_pre_low rate hr s hcash htax
  · by_cases h1 : s.need ≤ cover_eps
    · exact ⟨1, by rw [cover_need, if_pos h1]⟩
    have hneed : (0:ℚ) < s.need := lt_of_lt_of_le cover_eps_pos (not_le.mp h1).le
    obtain ⟨k, hk⟩ := exists_nat_ge (s.m.pre / s.need)
    refine cover_term_pre_high rate hr k s hcash htax ?_
    rw [div_le_iff₀ hneed] at hk
    linarith

lemma cover_term_of_need_le (rate : ℚ) (s : CoverState) (h : s.need ≤ cover_eps) :
    CoverTerm rate s := ⟨1, by rw [cover_need, if_pos h]⟩

lemma cover_term_step (rate : ℚ) (s s' : CoverState)
    (h : ∀ f : ℕ, cover_need rate (f + 1) s = cover_need rate f s') :
    CoverTerm rate s' → CoverTerm rate s := fun hs => by
  obtain ⟨f, hf⟩ := hs
  exact ⟨f + 1, by rw [h f]; exact hf⟩

lemma cover_term_taxable (rate : ℚ) : ∀ (k : ℕ) (s : CoverState),
    s.m.cash ≤ 0 → 0 ≤ s.m.taxable → 0 ≤ s.m.basis →
    s.need ≤ cover_eps * (5:ℚ) ^ k → CoverTerm rate s
  | 0, s, _, _, _, hk =>
    cover_term_of_need_le rate s (by rw [pow_zero, mul_one] at hk; exact hk)
  | (k+1), s, hc, ht, hb, hk => by
    by_cases h1 : s.need ≤ cover_eps
    · exact cover_term_of_need_le rate s h1
    have hneed : (0:ℚ) < s.need := lt_of_lt_of_le cover_eps_pos (not_le.mp h1).le
    have h2 : ¬ 0 < min s.m.cash s.need := by
      have := min_le_left s.m.cash s.need
      intro h
      linarith
    by_cases h3 : 0 < s.m.taxable
    · refine cover_term_step rate s _
        (fun f => by rw [cover_need, if_neg h1, if_neg h2, if_pos h3]) ?_
      by_cases h6 : s.m.taxable ≤ s.need
      · refine cover_term_pre rate _ ?_ ?_
        · exact hc
        · simp only []
          rw [min_eq_left h6]
          linarith
      · have hlt : s.need < s.m.taxable := not_le.mp h6
        have hmin : min s.m.taxable s.need = s.need := min_eq_right hlt.le
        have hratio : s.need / s.m.taxable ≤ 1 := by
          rw [div_le_one h3]
          linarith
        have hratio0 : 0 ≤ s.m.basis / s.m.taxable := div_nonneg hb h3.le
        refine cover_term_taxable rate k _ ?_ ?_ ?_ ?_
        · exact hc
        · simp only []
          rw [hmin]
          linarith
        · simp only []
          rw [hmin]
          have he : s.need * (s.m.basis / s.m.taxable) =
              s.m.basis * (s.need / s.m.taxable) := by ring
          rw [he]
          nlinarith
        · simp only []
          rw [hmin]
          have hGle : s.need - s.need * (s.m.basis / s.m.taxable) ≤ s.need := by
            nlinarith
          have hk5 : s.need ≤ cover_eps * 5 ^ k * 5 := by
            rw [pow_succ] at hk
            linarith
          have hek : (0:ℚ) ≤ cover_eps * 5 ^ k :=
            mul_nonneg cover_eps_pos.le (pow_nonneg (by norm_num) k)
          split_ifs with hcg
          · have hGpos : 0 < s.need - s.need * (s.m.basis / s.m.taxable) := by
              by_contra hng
              rw [cap_gains_nonpos _ (not_lt.mp hng)] at hcg
              exact lt_irrefl 0 hcg
            have h5 := cap_gains_le_fifth (s.need - s.need * (s.m.basis / s.m.taxable))
              hGpos.le
            linarith
          · linarith
    · exact cover_term_pre rate s hc (not_lt.mp h3)

lemma cover_term_cash (rate : ℚ) (s : CoverState) (h0 : 0 ≤ s.need)
    (h1c : 0 ≤ s.m.cash) (h2t : 0 ≤ s.m.taxable) (h3b : 0 ≤ s.m.basis) :
    CoverTerm rate s := by
  by_cases h1 : s.need ≤ cover_eps
  · exact cover_term_of_need_le rate s h1
  have hneed : (0:ℚ) < s.need := lt_of_lt_of_le cover_eps_pos (not_le.mp h1).le
  by_cases h2 : 0 < min s.m.cash s.need
  · refine cover_term_step rate s _
      (fun f => by rw [cover_need, if_neg h1, if_pos h2]) ?_
    by_cases h6 : s.need ≤ s.m.cash
    · refine cover_term_of_need_le rate _ ?_
      simp only []
      rw [min_eq_right h6]
      linarith [cover_eps_pos]
    · have hmin : min s.m.cash s.need = s.m.cash := min_eq_left (not_le.mp h6).le
      obtain ⟨k, hk⟩ := exists_eps_pow (s.need - min s.m.cash s.need)
      refine cover_term_taxable rate k _ ?_ ?_ ?_ ?_
      · simp only []
        rw [hmin]
        linarith
      · exact h2t
      · exact h3b
      · exact hk
  · have hcash : s.m.cash ≤ 0 := by
      rcases le_or_lt s.m.cash 0 with h | h
      · exact h
      · exact absurd (lt_min h hneed) h2
    obtain ⟨k, hk⟩ := exists_eps_pow s.need
    exact cover_term_taxable rate k s hcash h2t h3b hk

/-- C10: for every withdrawal tax rate and every starting state with
non-negative need, balances and basis — under the claim's hypothesis that
the capital-gains tax on a positive gain is strictly below the gain — the
`_cover_need` loop terminates: some fuel makes the embedded loop exit
exactly as the Python `while` does, and at that exit either the need is
down to the 1e-9 threshold or the cash, taxable, pre-tax and Roth balances
are all exhausted. -/
theorem C10_cover_terminates (rate : ℚ) (s : CoverState)
    (hcg : ∀ g : ℚ, 0 < g → compute_capital_gains_tax g < g)
    (h0 : 0 ≤ s.need) (h1 : 0 ≤ s.m.cash) (h2 : 0 ≤ s.m.taxable) (h3 : 0 ≤ s.m.basis)
    (h4 : 0 ≤ s.m.pre) (h5 : 0 ≤ s.m.roth) :
    ∃ fuel : ℕ, (cover_need rate fuel s).2 = true ∧
      ((cover_need rate fuel s).1.need ≤ cover_eps ∨
       ((cover_need rate fuel s).1.m.cash ≤ 0 ∧
        (cover_need rate fuel s).1.m.taxable ≤ 0 ∧
        (cover_need rate fuel s).1.m.pre ≤ 0 ∧
        (cover_need rate fuel s).1.m.roth ≤ 0)) := by
  obtain ⟨f, hf⟩ := cover_term_cash rate s h0 h1 h2 h3
  exact ⟨f, hf, cover_need_exit rate f s hf⟩

/-- C10 (witness): termination at rate 0 from need 1 with balances
(pre, roth, taxable, basis, cash) = (5, 6, 3, 4, 2). -/
theorem C10_cover_terminates_witness :
    ((∀ g : ℚ, 0 < g → compute_capital_gains_tax g < g) ∧
     (0:ℚ) ≤ 1 ∧ (0:ℚ) ≤ 2 ∧ (0:ℚ) ≤ 3 ∧ (0:ℚ) ≤ 4 ∧ (0:ℚ) ≤ 5 ∧ (0:ℚ) ≤ 6) ∧
    (∃ fuel : ℕ,
      (cover_need 0 fuel ⟨1, ⟨5, 6, 3, 4, 2, 0, 0⟩, 0⟩).2 = true ∧
      ((cover_need 0 fuel ⟨1, ⟨5, 6, 3, 4, 2, 0, 0⟩, 0⟩).1.need ≤ cover_eps ∨
       ((cover_need 0 fuel ⟨1, ⟨5, 6, 3, 4, 2, 0, 0⟩, 0⟩).1.m.cash ≤ 0 ∧
        (cover_need 0 fuel ⟨1, ⟨5, 6, 3, 4, 2, 0, 0⟩, 0⟩).1.m.taxable ≤ 0 ∧
        (cover_need 0 fuel ⟨1, ⟨5, 6, 3, 4, 2, 0, 0⟩, 0⟩).1.m.pre ≤ 0 ∧
        (cover_need 0 fuel ⟨1, ⟨5, 6, 3, 4, 2, 0, 0⟩, 0⟩).1.m.roth ≤ 0))) :=
  ⟨⟨fun g hg => cap_gains_lt g hg, by norm_num, by norm_num, by norm_num, by norm_num,
    by norm_num, by norm_num⟩,
   C10_cover_terminates 0 ⟨1, ⟨5, 6, 3, 4, 2, 0, 0⟩, 0⟩ (fun g hg => cap_gains_lt g hg)
     (by norm_num) (by norm_num) (by norm_num) (by norm_num) (by norm_num) (by norm_num)⟩
